import Mathlib

/-!
Verification development for the FrameworkPE incident-classification
repository.  The definitions below are a shallow embedding of the Python
sources under `src/` (file and symbol named at each definition); theorems
at the end of the file settle the specification claims against them.

Modelling conventions:
* Python strings are Lean `String`s; character-level work happens on
  `String.data` (`List Char`) so everything evaluates by kernel reduction.
* fallible Python code (code that can raise) is embedded in
  `Except PyErr _`; the uncaught-exception kinds that can actually occur
  are enumerated in `PyErr`.
* the language model behind `model_plugin.send_prompt` is an oracle
  `responses : Nat -> String` giving the response to the k-th call of a
  run (calls are strictly sequential in the source, so quantifying over
  response sequences covers every possible model);
  `calculate_rouge_score` is likewise an arbitrary scorer parameter
  `score : String -> String -> Rat` (the rouge_score library is an
  external dependency; no claim depends on its numeric values).
* ASCII approximation: `str.upper`, `\b` word characters and whitespace
  classes are modelled exactly on the ASCII range (all claim inputs are
  ASCII); Python-specific extras such as `\x85` are included where the
  CPython classes have them.
-/

/-- Kinds of exception the embedded code can raise (`AttributeError`
from `value.strip()` on a non-string, `TypeError` from `"k" in v` /
`v["k"]` on non-containers, `KeyError` from a missing dict key — the
latter unreachable in the embedded paths — and `UnboundLocalError` from
the Hypothesis Testing fall-through referencing the loop-local
`incident_id` when the loop body never ran). -/
inductive PyErr where
  | attributeError : PyErr
  | typeError : PyErr
  | keyError : PyErr
  | unboundLocalError : PyErr
deriving DecidableEq, Repr

/-- Whitespace class of Python `str.strip()` and of the regex `\s`
(ASCII/Latin-1 range: space, \t, \n, \r, \v, \f, \x1c-\x1f, \x85, \xa0). -/
def pyWs (c : Char) : Bool :=
  c = ' ' || c = '\t' || c = '\n' || c = '\r' || c = '\x0b' || c = '\x0c' ||
  c = '\x1c' || c = '\x1d' || c = '\x1e' || c = '\x1f' || c = '\x85' || c = '\xa0'

/-- Python `str.strip()` on a character list. -/
def listStrip (l : List Char) : List Char :=
  ((l.dropWhile pyWs).reverse.dropWhile pyWs).reverse

/-- Python `str.strip()`. -/
def pyStrip (s : String) : String :=
  String.mk (listStrip s.data)

/-- Python `str.upper()` (ASCII). -/
def pyUpper (s : String) : String :=
  String.mk (s.data.map Char.toUpper)

/-- Word character of the regex `\b` boundary: `[A-Za-z0-9_]` (ASCII). -/
def isWordChar (c : Char) : Bool :=
  c.isAlphanum || c = '_'

/-- Helper: `pat` occurs as a contiguous sublist of `l` (Python
`pat in s` on strings, used by the embedded `"Category" in dados` check
when `dados` is a `str`). -/
def listHasInfix (pat : List Char) (l : List Char) : Bool :=
  match l with
  | [] => pat.isEmpty
  | _ :: rest => pat.isPrefixOf l || listHasInfix pat rest

/-- Python `needle in haystack` for strings. -/
def strHasInfix (needle haystack : String) : Bool :=
  listHasInfix needle.data haystack.data

/-! ## JSON values and `json.loads`
Embeds the subset of CPython `json.loads` behaviour the extractor can
observe: whether a text parses, the shape of the parsed value, and the
key/value structure of objects (later duplicate keys win, as in `dict`).
Numeric values are kept as their lexemes; the extractor never looks at
them beyond their non-string-ness.  `NaN`/`Infinity`/`-Infinity` are
accepted, as CPython does by default. -/

/-- Parsed JSON value (`json.loads` result). Objects keep their pairs in
parse order; lookups take the last occurrence of a key, matching `dict`
construction. -/
inductive Json where
  | null : Json
  | bool (b : Bool) : Json
  | num (lexeme : String) : Json
  | str (s : String) : Json
  | arr (elems : List Json) : Json
  | obj (kvs : List (String × Json)) : Json

/-- JSON insignificant whitespace (only these four, per RFC/CPython). -/
def jsonWs (c : Char) : Bool :=
  c = ' ' || c = '\t' || c = '\n' || c = '\r'

/-- Hexadecimal digit value for `\uXXXX` escapes. -/
def hexVal (c : Char) : Option Nat :=
  if '0' ≤ c ∧ c ≤ '9' then some (c.toNat - '0'.toNat)
  else if 'a' ≤ c ∧ c ≤ 'f' then some (c.toNat - 'a'.toNat + 10)
  else if 'A' ≤ c ∧ c ≤ 'F' then some (c.toNat - 'A'.toNat + 10)
  else none

/-- Decode the four hex digits of a `\uXXXX` escape. -/
def hex4 (l : List Char) : Option (Nat × List Char) :=
  match l with
  | a :: b :: c :: d :: rest =>
    match hexVal a, hexVal b, hexVal c, hexVal d with
    | some va, some vb, some vc, some vd =>
      some (((va * 16 + vb) * 16 + vc) * 16 + vd, rest)
    | _, _, _, _ => none
  | _ => none

/-- Turn a code point into a `Char`, mapping values that are not valid
Lean scalar values (lone surrogates) to U+FFFD. -/
def codePointChar (n : Nat) : Char :=
  if h : n < 0xd800 ∨ (0xdfff < n ∧ n < 0x110000) then ⟨⟨n, by omega⟩, by simpa using h⟩
  else '�'

/-- Lex the body of a JSON string literal (the opening quote already
consumed); strict mode: raw control characters and unknown escapes are
rejected.  Surrogate pairs in `\u` escapes are combined. -/
def lexJsonString (fuel : Nat) (acc : List Char) (l : List Char) :
    Option (String × List Char) :=
  match fuel with
  | 0 => none
  | fuel + 1 =>
    match l with
    | [] => none
    | '"' :: rest => some (String.mk acc.reverse, rest)
    | '\\' :: e :: rest =>
      match e with
      | '"' => lexJsonString fuel ('"' :: acc) rest
      | '\\' => lexJsonString fuel ('\\' :: acc) rest
      | '/' => lexJsonString fuel ('/' :: acc) rest
      | 'b' => lexJsonString fuel ('\x08' :: acc) rest
      | 'f' => lexJsonString fuel ('\x0c' :: acc) rest
      | 'n' => lexJsonString fuel ('\n' :: acc) rest
      | 'r' => lexJsonString fuel ('\r' :: acc) rest
      | 't' => lexJsonString fuel ('\t' :: acc) rest
      | 'u' =>
        match hex4 rest with
        | none => none
        | some (n, rest2) =>
          if 0xd800 ≤ n ∧ n ≤ 0xdbff then
            match rest2 with
            | '\\' :: 'u' :: rest3 =>
              match hex4 rest3 with
              | some (m, rest4) =>
                if 0xdc00 ≤ m ∧ m ≤ 0xdfff then
                  lexJsonString fuel
                    (codePointChar (0x10000 + (n - 0xd800) * 0x400 + (m - 0xdc00)) :: acc) rest4
                else lexJsonString fuel (codePointChar m :: codePointChar n :: acc) rest4
              | none => none
            | _ => lexJsonString fuel (codePointChar n :: acc) rest2
          else lexJsonString fuel (codePointChar n :: acc) rest2
      | _ => none
    | c :: rest =>
      if c.toNat < 0x20 then none
      else lexJsonString fuel (c :: acc) rest

/-- Lex a JSON number at the head of `l` (CPython scanner regex
`(-?(?:0|[1-9]\d*))(\.\d+)?([eE][-+]?\d+)?`, maximal munch); returns the
lexeme. -/
def lexJsonNumber (l : List Char) : Option (String × List Char) :=
  let intPart : Option (List Char × List Char) :=
    match l with
    | '-' :: rest =>
      match rest with
      | '0' :: rest2 => some (['-', '0'], rest2)
      | c :: _ =>
        if '1' ≤ c ∧ c ≤ '9' then
          let ds := rest.takeWhile Char.isDigit
          some ('-' :: ds, rest.dropWhile Char.isDigit)
        else none
      | [] => none
    | '0' :: rest2 => some (['0'], rest2)
    | c :: _ =>
      if '1' ≤ c ∧ c ≤ '9' then
        some (l.takeWhile Char.isDigit, l.dropWhile Char.isDigit)
      else none
    | [] => none
  match intPart with
  | none => none
  | some (ip, rest) =>
    let (fp, rest2) :=
      match rest with
      | '.' :: d :: _ =>
        if d.isDigit then
          ('.' :: (rest.drop 1).takeWhile Char.isDigit,
           (rest.drop 1).dropWhile Char.isDigit)
        else ([], rest)
      | _ => ([], rest)
    let (ep, rest3) :=
      match rest2 with
      | e :: tail =>
        if e = 'e' ∨ e = 'E' then
          match tail with
          | s :: d :: _ =>
            if (s = '+' ∨ s = '-') ∧ d.isDigit then
              (e :: s :: (tail.drop 1).takeWhile Char.isDigit,
               (tail.drop 1).dropWhile Char.isDigit)
            else if s.isDigit then
              (e :: tail.takeWhile Char.isDigit, tail.dropWhile Char.isDigit)
            else ([], rest2)
          | [s] =>
            if s.isDigit then (e :: [s], []) else ([], rest2)
          | [] => ([], rest2)
        else ([], rest2)
      | [] => ([], rest2)
    some (String.mk (ip ++ fp ++ ep), rest3)

mutual

/-- Parse one JSON value at the head of `l` (whitespace already
skipped). -/
def parseJsonValue (fuel : Nat) (l : List Char) : Option (Json × List Char) :=
  match fuel with
  | 0 => none
  | fuel + 1 =>
    match l with
    | '{' :: rest => parseJsonObj fuel [] (rest.dropWhile jsonWs) true
    | '[' :: rest => parseJsonArr fuel [] (rest.dropWhile jsonWs) true
    | '"' :: rest =>
      match lexJsonString (rest.length + 1) [] rest with
      | some (s, rest2) => some (Json.str s, rest2)
      | none => none
    | 't' :: 'r' :: 'u' :: 'e' :: rest => some (Json.bool true, rest)
    | 'f' :: 'a' :: 'l' :: 's' :: 'e' :: rest => some (Json.bool false, rest)
    | 'n' :: 'u' :: 'l' :: 'l' :: rest => some (Json.null, rest)
    | 'N' :: 'a' :: 'N' :: rest => some (Json.num "NaN", rest)
    | 'I' :: 'n' :: 'f' :: 'i' :: 'n' :: 'i' :: 't' :: 'y' :: rest =>
      some (Json.num "Infinity", rest)
    | '-' :: 'I' :: 'n' :: 'f' :: 'i' :: 'n' :: 'i' :: 't' :: 'y' :: rest =>
      some (Json.num "-Infinity", rest)
    | _ =>
      match lexJsonNumber l with
      | some (lex, rest) => some (Json.num lex, rest)
      | none => none

/-- Parse the members of a JSON object after `{` (`first` marks that no
member has been consumed yet, so `}` closes an empty object). -/
def parseJsonObj (fuel : Nat) (acc : List (String × Json)) (l : List Char)
    (first : Bool) : Option (Json × List Char) :=
  match fuel with
  | 0 => none
  | fuel + 1 =>
    match l with
    | '}' :: rest =>
      if first then some (Json.obj acc.reverse, rest) else none
    | '"' :: rest =>
      match lexJsonString (rest.length + 1) [] rest with
      | none => none
      | some (k, rest2) =>
        match (rest2.dropWhile jsonWs) with
        | ':' :: rest3 =>
          match parseJsonValue fuel (rest3.dropWhile jsonWs) with
          | none => none
          | some (v, rest4) =>
            match (rest4.dropWhile jsonWs) with
            | ',' :: rest5 => parseJsonObjMore fuel ((k, v) :: acc) (rest5.dropWhile jsonWs)
            | '}' :: rest5 => some (Json.obj ((k, v) :: acc).reverse, rest5)
            | _ => none
        | _ => none
    | _ => none

/-- Continue an object after a comma (a member must follow). -/
def parseJsonObjMore (fuel : Nat) (acc : List (String × Json)) (l : List Char) :
    Option (Json × List Char) :=
  match fuel with
  | 0 => none
  | fuel + 1 =>
    match l with
    | '"' :: rest =>
      match lexJsonString (rest.length + 1) [] rest with
      | none => none
      | some (k, rest2) =>
        match (rest2.dropWhile jsonWs) with
        | ':' :: rest3 =>
          match parseJsonValue fuel (rest3.dropWhile jsonWs) with
          | none => none
          | some (v, rest4) =>
            match (rest4.dropWhile jsonWs) with
            | ',' :: rest5 => parseJsonObjMore fuel ((k, v) :: acc) (rest5.dropWhile jsonWs)
            | '}' :: rest5 => some (Json.obj ((k, v) :: acc).reverse, rest5)
            | _ => none
        | _ => none
    | _ => none

/-- Parse the elements of a JSON array after `[`. -/
def parseJsonArr (fuel : Nat) (acc : List Json) (l : List Char)
    (first : Bool) : Option (Json × List Char) :=
  match fuel with
  | 0 => none
  | fuel + 1 =>
    match l with
    | ']' :: rest =>
      if first then some (Json.arr acc.reverse, rest) else none
    | _ =>
      match parseJsonValue fuel l with
      | none => none
      | some (v, rest) =>
        match (rest.dropWhile jsonWs) with
        | ',' :: rest2 => parseJsonArrMore fuel (v :: acc) (rest2.dropWhile jsonWs)
        | ']' :: rest2 => some (Json.arr (v :: acc).reverse, rest2)
        | _ => none

/-- Continue an array after a comma (an element must follow). -/
def parseJsonArrMore (fuel : Nat) (acc : List Json) (l : List Char) :
    Option (Json × List Char) :=
  match fuel with
  | 0 => none
  | fuel + 1 =>
    match l with
    | ']' :: _ => none
    | _ =>
      match parseJsonValue fuel l with
      | none => none
      | some (v, rest) =>
        match (rest.dropWhile jsonWs) with
        | ',' :: rest2 => parseJsonArrMore fuel (v :: acc) (rest2.dropWhile jsonWs)
        | ']' :: rest2 => some (Json.arr (v :: acc).reverse, rest2)
        | _ => none

end

/-- Python `json.loads`: the whole text (modulo surrounding JSON
whitespace) must be one value; `none` models `json.JSONDecodeError`. -/
def parseJson (texto : String) : Option Json :=
  match parseJsonValue (texto.length + 1) (texto.data.dropWhile jsonWs) with
  | some (v, rest) => if (rest.dropWhile jsonWs).isEmpty then some v else none
  | none => none

/-- Python `key in value` on a `json.loads` result: key membership for
dicts, element equality for lists, substring test for strings,
`TypeError` for the non-iterable scalars. -/
def pyIn (key : String) (v : Json) : Except PyErr Bool :=
  match v with
  | Json.obj kvs => Except.ok (kvs.any (fun kv => kv.1 = key))
  | Json.arr elems => Except.ok (elems.any (fun e =>
      match e with
      | Json.str s => s = key
      | _ => false))
  | Json.str s => Except.ok (strHasInfix key s)
  | _ => Except.error PyErr.typeError

/-- Last-occurrence lookup in a parsed object, matching `dict`
construction where a later duplicate key overwrites an earlier one. -/
def objLookup (kvs : List (String × Json)) (key : String) : Option Json :=
  match kvs with
  | [] => none
  | (k, v) :: rest =>
    match objLookup rest key with
    | some w => some w
    | none => if k = key then some v else none

/-- Python `value[key]` on a `json.loads` result. -/
def pyGetItem (key : String) (v : Json) : Except PyErr Json :=
  match v with
  | Json.obj kvs =>
    match objLookup kvs key with
    | some w => Except.ok w
    | none => Except.error PyErr.keyError
  | _ => Except.error PyErr.typeError

/-- Python `value.strip()` on a `json.loads` result: `AttributeError`
unless the value is a string. -/
def pyStripAttr (v : Json) : Except PyErr String :=
  match v with
  | Json.str s => Except.ok (pyStrip s)
  | _ => Except.error PyErr.attributeError

/-! ## Regex fallback of the extractor
Embeds the single pattern
`(?:\*\*Category:\*\*|Category:)\s*(.*?)\s*(?:\*\*Explanation:\*\*|Explanation:|Explanation:)\s*(.*?)(?=\n|$)`
used with `re.DOTALL` by `re.findall` in
`src/utils/security_extractor.py` / `src/plugins/prompts/base_prompt.py`.
The backtracking semantics of this specific pattern collapse to a
deterministic scan:
* the two marker alternatives can never match at the same position (one
  starts with `*`, the other with a letter), so alternation order is moot;
* each `\s*` is immediately followed by a marker whose first character is
  not whitespace, or (for the third `\s*`) by a lazy `.*?` that can absorb
  anything, so every `\s*` always consumes its maximal whitespace run;
* the lazy captures take the least end position for which the rest of the
  pattern matches; the tail after the Explanation marker always matches
  (the `(?=\n|$)` lookahead at worst succeeds at end of input), so
  capture 2 simply stops before the first `\n`, and capture 1 stops at the
  earliest point from which whitespace followed by an Explanation marker
  continues the text. -/

/-- The marker `**Category:**` / `Category:` at the head of `l`; returns
the remainder after the marker. -/
def matchCategoryMarker (l : List Char) : Option (List Char) :=
  if "**Category:**".data.isPrefixOf l then some (l.drop 13)
  else if "Category:".data.isPrefixOf l then some (l.drop 9)
  else none

/-- Scan for `\s*` + Explanation marker, returning the first capture
(the text before the whitespace run) and the remainder after the
marker. -/
def findExplanationMarker (l : List Char) : Option (List Char × List Char) :=
  let t := l.dropWhile pyWs
  if "**Explanation:**".data.isPrefixOf t then some ([], t.drop 16)
  else if "Explanation:".data.isPrefixOf t then some ([], t.drop 12)
  else
    match l with
    | [] => none
    | c :: rest =>
      match findExplanationMarker rest with
      | some (cap, r) => some (c :: cap, r)
      | none => none

/-- Attempt the whole pattern anchored at the head of `l`; on success
returns (capture 1, capture 2, remainder after the match).  The match
ends where capture 2 ends (the lookahead consumes nothing). -/
def tryPatternAt (l : List Char) : Option (List Char × List Char × List Char) :=
  match matchCategoryMarker l with
  | none => none
  | some afterCat =>
    match findExplanationMarker (afterCat.dropWhile pyWs) with
    | none => none
    | some (cap1, afterExp) =>
      let t := afterExp.dropWhile pyWs
      some (cap1, t.takeWhile (fun c => c ≠ '\n'), t.dropWhile (fun c => c ≠ '\n'))

/-- Leftmost scan of `re.findall`: try the pattern at each position,
resume after the end of each (necessarily non-empty) match. -/
def findMatchesAux (fuel : Nat) (l : List Char) : List (List Char × List Char) :=
  match fuel with
  | 0 => []
  | fuel + 1 =>
    match l with
    | [] => []
    | _ :: rest =>
      match tryPatternAt l with
      | some (cap1, cap2, r) => (cap1, cap2) :: findMatchesAux fuel r
      | none => findMatchesAux fuel rest

/-- All pattern matches of the extraction regex in `l`, in order
(`re.findall(padrao, texto, re.DOTALL)`). -/
def findMatches (l : List Char) : List (List Char × List Char) :=
  findMatchesAux l.length l

/-! ## Category canonicalization (`extract_cat` / `_extract_cat`)
`re.search` of the pattern `\bCAT([1-9]|1[0-2])\b` over `texto.upper()`: leftmost match,
branch `[1-9]` preferred over `1[0-2]` at the same start position. -/

/-- No word character follows (the trailing `\b` after the digit
group). -/
def noWordAhead (l : List Char) : Bool :=
  match l with
  | [] => true
  | c :: _ => !isWordChar c

/-- Digits matched by `CAT([1-9]|1[0-2])\b` anchored at the head of `l`
(the leading `\b` is checked by the caller). -/
def catDigitsAt (l : List Char) : Option (List Char) :=
  match l with
  | c1 :: c2 :: c3 :: d :: rest =>
    if c1 = 'C' ∧ c2 = 'A' ∧ c3 = 'T' then
      if '1' ≤ d ∧ d ≤ '9' ∧ noWordAhead rest then some [d]
      else
        match rest with
        | e :: rest2 =>
          if d = '1' ∧ '0' ≤ e ∧ e ≤ '2' ∧ noWordAhead rest2 then some ['1', e]
          else none
        | [] => none
    else none
  | _ => none

/-- Leftmost `re.search` scan for `\bCAT([1-9]|1[0-2])\b`; `prevWord`
says whether the character before the current position is a word
character (no match can start there, for want of the leading `\b`). -/
def scanCat (prevWord : Bool) (l : List Char) : Option (List Char) :=
  match l with
  | [] => none
  | c :: rest =>
    match if prevWord then none else catDigitsAt l with
    | some ds => some ds
    | none => scanCat (isWordChar c) rest

/-- Source `extract_cat` (`src/utils/security_extractor.py`) and the
identical `_extract_cat` (`src/plugins/prompts/base_prompt.py`): return
the first whole-word `CAT1`..`CAT12` code of the uppercased text, or the
text unchanged when there is none. -/
def extract_cat (texto : String) : String :=
  match scanCat false (pyUpper texto).data with
  | some ds => "CAT" ++ String.mk ds
  | none => texto

/-- Category/Explanation pair produced by extraction. -/
structure SecIncident where
  Category : String
  Explanation : String
deriving DecidableEq, Repr

/-- Python `captured.replace("*", "").replace("\n", "").strip()` applied
to a captured group (deleting every occurrence of each single character
is exactly `str.replace(c, "")`). -/
def cleanCapture (l : List Char) : String :=
  pyStrip (String.mk (l.filter (fun c => c ≠ '*' ∧ c ≠ '\n')))

/-- Regex branch of the extractor: last match wins, lowercase sentinel
when there is no match. -/
def extractViaRegex (texto : String) : SecIncident :=
  match (findMatches texto.data).getLast? with
  | some (cap1, cap2) =>
    { Category := extract_cat (cleanCapture cap1), Explanation := cleanCapture cap2 }
  | none => { Category := "unknown", Explanation := "unknown" }

/-- Source `extract_security_incidents`
(`src/utils/security_extractor.py`, and the behaviourally identical
method in `src/plugins/prompts/base_prompt.py`): try `json.loads`; if the
parsed value contains both `Category` and `Explanation`, return their
stripped values (raising `TypeError`/`AttributeError` exactly where the
Python `in`/`[]`/`.strip()` operations do on non-dict / non-string
shapes); otherwise fall back to the regex scan. -/
def extract_security_incidents (texto : String) : Except PyErr SecIncident :=
  match parseJson texto with
  | some dados =>
    match pyIn "Category" dados with
    | Except.error e => Except.error e
    | Except.ok hasCat =>
      if hasCat then
        match pyIn "Explanation" dados with
        | Except.error e => Except.error e
        | Except.ok hasExp =>
          if hasExp then
            match pyGetItem "Category" dados with
            | Except.error e => Except.error e
            | Except.ok vc =>
              match pyStripAttr vc with
              | Except.error e => Except.error e
              | Except.ok c =>
                match pyGetItem "Explanation" dados with
                | Except.error e => Except.error e
                | Except.ok ve =>
                  match pyStripAttr ve with
                  | Except.error e => Except.error e
                  | Except.ok ex => Except.ok { Category := c, Explanation := ex }
          else Except.ok (extractViaRegex texto)
      else Except.ok (extractViaRegex texto)
  | none => Except.ok (extractViaRegex texto)

/-! ## Prompt-technique layer
`src/plugins/prompts/*.py`.  The model oracle `responses : Nat -> String`
maps the index of a `send_prompt` call (0-based, per run) to the response
text; the similarity scorer is an arbitrary `score` function (see the
header).  Each `execute` additionally returns the number of model calls
made, and Progressive Rectification the list of
(rejected category, rectification prompt) pairs, as run instrumentation
for the theorems. -/

/-- A `send_prompt` call: response of the oracle to call number `calls`,
and the bumped call counter.  The prompt text and the `mode`/incident-id
tags do not influence which response comes back (the oracle is indexed by
call position, which covers every possible prompt-dependent model since
the calls of a run are strictly sequential). -/
def send_prompt (responses : Nat → String) (calls : Nat) (_prompt : String) :
    String × Nat :=
  (responses calls, calls + 1)

/-- Helper: `" / ".join(parts)`. -/
def joinBySlash (parts : List String) : String :=
  match parts with
  | [] => ""
  | p :: rest => rest.foldl (fun acc q => acc ++ " / " ++ q) p

/-- An input row as the techniques and the runner see it: the named text
fields of the pandas Series (a missing value models NaN/None, for which
`pd.notnull` is false) and the positional index of the row. -/
structure DataRow where
  index : Nat
  entries : List (String × Option String)
deriving DecidableEq, Repr

/-- Row field access (`coluna in row`, `row[coluna]`). -/
def rowGet (row : DataRow) (coluna : String) : Option (Option String) :=
  (row.entries.find? (fun e => e.1 = coluna)).map (fun e => e.2)

/-- Source `build_incident_info` (`src/plugins/prompts/base_prompt.py`)
and the identical `_build_incident_info`
(`src/core/framework.py`): one `"col: value"` item per configured column,
`[valor ausente]` when the column is absent or null, joined by `" / "`. -/
def build_incident_info (row : DataRow) (columns : List String) : String :=
  joinBySlash (columns.map (fun coluna =>
    match rowGet row coluna with
    | some (some v) => coluna ++ ": " ++ v
    | _ => coluna ++ ": [valor ausente]"))

/-- The `output_format` block appended by Progressive Hint, Self Hint and
Progressive Rectification (the identical triple-quoted literal appears in
each of the three plugin files). -/
def output_format : String :=
  "\n        If classification is not possible, return:\n        Category: Unknown\n        Explanation: Unknown\n        \n        OUTPUT:\n        Category: [NIST code]\n        Explanation: [Justification for the chosen category]\n        "

/-- Record emitted by Progressive Hint and Self Hint (dict keys `id`,
`informacoes_das_colunas`, `categoria`, `explicacao`, `rouge`,
`iteracao`). -/
structure HintRecord where
  id : String
  informacoes_das_colunas : String
  categoria : String
  explicacao : String
  rouge : Rat
  iteracao : Nat
deriving DecidableEq, Repr

/-- Record emitted by Progressive Rectification (score key `qualidade`). -/
structure PRPRecord where
  id : String
  informacoes_das_colunas : String
  categoria : String
  explicacao : String
  qualidade : Rat
  iteracao : Nat
deriving DecidableEq, Repr

/-- Record emitted by Hypothesis Testing (extra key `categoria_testada`). -/
structure HTPRecord where
  id : String
  informacoes_das_colunas : String
  categoria : String
  explicacao : String
  categoria_testada : String
  rouge : Rat
  iteracao : Nat
deriving DecidableEq, Repr

/-! ### Progressive Hint (`src/plugins/prompts/progressive_hint.py`) -/

/-- Loop body of `ProgressiveHintPlugin.execute`
(`for i in range(max_hints)`), unfolded on the remaining iteration count
`gas = max_hints - i`.  Falling out of the loop without a break returns
the (empty) accumulated `resultados`. -/
def progressive_hint_loop (responses : Nat → String)
    (score : String → String → Rat) (full_prompt informacoes incident_id : String)
    (max_hints : Nat) (limite_rouge : Rat) (i : Nat) (resposta_anterior : String)
    (calls : Nat) (gas : Nat) : Except PyErr (List HintRecord × Nat) :=
  match gas with
  | 0 => Except.ok ([], calls)
  | gas + 1 =>
    match extract_security_incidents resposta_anterior with
    | Except.error e => Except.error e
    | Except.ok prev =>
      let categoria_anterior := prev.Category
      let dica := "Hint: The category is near: " ++ categoria_anterior
      let hint_prompt := dica ++ " " ++ full_prompt
      let (nova_resposta, calls2) := send_prompt responses calls hint_prompt
      match extract_security_incidents nova_resposta with
      | Except.error e => Except.error e
      | Except.ok nova =>
        let categoria_atual := nova.Category
        let rouge_score := score categoria_anterior categoria_atual
        if i + 1 = max_hints ∨ limite_rouge ≤ rouge_score then
          match extract_security_incidents nova_resposta with
          | Except.error e => Except.error e
          | Except.ok categoria_info =>
            Except.ok ([{ id := incident_id,
                          informacoes_das_colunas := informacoes,
                          categoria := categoria_info.Category,
                          explicacao := categoria_info.Explanation,
                          rouge := rouge_score,
                          iteracao := i + 1 }], calls2)
        else
          progressive_hint_loop responses score full_prompt informacoes incident_id
            max_hints limite_rouge (i + 1) nova_resposta calls2 gas

/-- Source `ProgressiveHintPlugin.execute`
(`src/plugins/prompts/progressive_hint.py`): first call, then the
progressive-hint loop; `max_hints == 0` short-circuits to the
extraction of the first response, with score `0.0` and iteration `0`. -/
def progressive_hint_execute (responses : Nat → String)
    (score : String → String → Rat) (prompt : String) (data_row : DataRow)
    (columns : List String) (incident_id : String) (max_hints : Nat)
    (limite_rouge : Rat) : Except PyErr (List HintRecord × Nat) :=
  let full_prompt := prompt ++ " " ++ output_format
  let (resposta, calls1) := send_prompt responses 0 full_prompt
  let informacoes_das_colunas := build_incident_info data_row columns
  if max_hints = 0 then
    match extract_security_incidents resposta with
    | Except.error e => Except.error e
    | Except.ok categoria_info =>
      Except.ok ([{ id := incident_id,
                    informacoes_das_colunas := informacoes_das_colunas,
                    categoria := categoria_info.Category,
                    explicacao := categoria_info.Explanation,
                    rouge := 0,
                    iteracao := 0 }], calls1)
  else
    progressive_hint_loop responses score full_prompt informacoes_das_colunas
      incident_id max_hints limite_rouge 0 resposta calls1 max_hints

/-! ### Self Hint (`src/plugins/prompts/self_hint.py`) -/

/-- The fixed planning instruction `plano` of `SelfHintPlugin.execute`. -/
def sh_plano : String :=
  "Let\x27s first understand the problem and devise a plan to solve the problem. Then, let\x27s carry out the plan and solve the problem step by step."

/-- Refinement loop of `SelfHintPlugin.execute`
(`for i in range(max_iter)`), unfolded on `gas = max_iter - i`; falling
out of the loop returns the empty `resultados`. -/
def self_hint_loop (responses : Nat → String) (score : String → String → Rat)
    (prompt informacoes incident_id : String) (max_iter : Nat)
    (limite_qualidade : Rat) (i : Nat) (plano_intermediario categoria_anterior : String)
    (calls : Nat) (gas : Nat) : Except PyErr (List HintRecord × Nat) :=
  match gas with
  | 0 => Except.ok ([], calls)
  | gas + 1 =>
    let prompt_reflexao := prompt ++ " " ++ plano_intermediario ++
      " The category is: " ++ categoria_anterior ++ " " ++ output_format
    let (response, calls2) := send_prompt responses calls prompt_reflexao
    match extract_security_incidents response with
    | Except.error e => Except.error e
    | Except.ok incident =>
      let categoria_atual := incident.Category
      let rouge_score := score categoria_anterior categoria_atual
      if i + 1 = max_iter ∨ limite_qualidade ≤ rouge_score then
        Except.ok ([{ id := incident_id,
                      informacoes_das_colunas := informacoes,
                      categoria := categoria_atual,
                      explicacao := incident.Explanation,
                      rouge := rouge_score,
                      iteracao := i + 1 }], calls2)
      else
        let prompt_inicial := prompt ++ " " ++ sh_plano ++
          " The category is: " ++ categoria_atual
        let (plano2, calls3) := send_prompt responses calls2 prompt_inicial
        self_hint_loop responses score prompt informacoes incident_id max_iter
          limite_qualidade (i + 1) plano2 categoria_atual calls3 gas

/-- Source `SelfHintPlugin.execute` (`src/plugins/prompts/self_hint.py`):
plan generation, initial execution, then the refinement loop. -/
def self_hint_execute (responses : Nat → String)
    (score : String → String → Rat) (prompt : String) (data_row : DataRow)
    (columns : List String) (incident_id : String) (max_iter : Nat)
    (limite_qualidade : Rat) : Except PyErr (List HintRecord × Nat) :=
  let prompt_inicial := prompt ++ " " ++ sh_plano
  let (plano_intermediario, calls1) := send_prompt responses 0 prompt_inicial
  let (response, calls2) :=
    send_prompt responses calls1 (prompt_inicial ++ " " ++ output_format)
  match extract_security_incidents response with
  | Except.error e => Except.error e
  | Except.ok first =>
    let informacoes_das_colunas := build_incident_info data_row columns
    self_hint_loop responses score prompt informacoes_das_colunas incident_id
      max_iter limite_qualidade 0 plano_intermediario first.Category calls2 max_iter

/-! ### Progressive Rectification
(`src/plugins/prompts/progressive_rectification.py`) -/

/-- The static keyword table `palavras_chave` of `_get_subcategories`
(the same dict literal appears in `progressive_rectification.py` and
`hypothesis_testing.py`; `get_nist_categories` in
`src/utils/security_extractor.py` carries the same keyword lists). -/
def palavras_chave (categoria : String) : Option (List String) :=
  if categoria = "CAT1" then some ["phishing", "brute force", "unauthorized access", "compromised password", "credential theft", "account compromise", "token", "oauth", "ssh", "suspicious login"]
  else if categoria = "CAT2" then some ["malware", "ransomware", "trojan", "virus", "spyware", "rootkit", "infection", "malicious code"]
  else if categoria = "CAT3" then some ["ddos", "dos", "denial of service", "flood", "syn flood", "udp flood", "botnet", "api outage", "site down"]
  else if categoria = "CAT4" then some ["data leak", "exposed data", "leaked credentials", "sensitive information", "data exfiltration", "unauthorized disclosure"]
  else if categoria = "CAT5" then some ["exploit", "vulnerability", "cve", "remote execution", "sql injection", "injection", "rce", "security flaw"]
  else if categoria = "CAT6" then some ["insider", "internal abuse", "employee", "internal leak", "sabotage", "intentional action", "staff"]
  else if categoria = "CAT7" then some ["social engineering", "phishing", "vishing", "fraud", "deception", "spoofing", "manipulation", "scam", "ceo fraud"]
  else if categoria = "CAT8" then some ["physical access", "equipment theft", "burglary", "unauthorized entry", "broken door", "physical breach"]
  else if categoria = "CAT9" then some ["modification", "defacement", "unauthorized change", "erased", "altered record", "tampering"]
  else if categoria = "CAT10" then some ["misuse", "resource abuse", "crypto mining", "compromised server", "malware hosting", "unauthorized use"]
  else if categoria = "CAT11" then some ["third party", "supplier", "partner", "vendor", "supply chain", "external breach", "saas issue"]
  else if categoria = "CAT12" then some ["intrusion attempt", "scan", "reconnaissance", "probing", "port scan", "blocked exploit", "failed attempt"]
  else if categoria = "UNKNOWN" then some ["unknown", "unspecified", "not categorized", "no category", "undefined", "other"]
  else none

/-- Source `_get_subcategories`:
`palavras_chave.get(categoria.strip().upper(), [])`. -/
def get_subcategories (categoria : String) : List String :=
  match palavras_chave (pyUpper (pyStrip categoria)) with
  | some l => l
  | none => []

/-- Source `_build_rectification_prompt`
(`src/plugins/prompts/progressive_rectification.py`). -/
def build_rectification_prompt (prompt : String) (categoria_rejectada : String) : String :=
  "\n        Incident: " ++ prompt ++
  "\n        The answer is probably not: " ++ categoria_rejectada ++
  "\n        Let\x27s think step by step to reclassify.\n        \n        OUTPUT:\n        Category: [NIST code]\n        Explanation: [Justification for the chosen category]\n        "

/-- The masking request text built by `_mask_prompt` (the call itself is
made by the caller via `send_prompt`). -/
def build_mask_prompt (prompt : String) (subcat : String) : String :=
  "\n        " ++ prompt ++
  "\n        Replace all occurrences of the word \x27" ++ subcat ++
  "\x27 with \x27X\x27 in a given text. \n        Ensure that the substitution preserves the original context and sentence structure.\n        "

/-- The verification text built by `_validate_response` from the masked
incident, the hypothesis category and the keyword. -/
def build_validation_prompt (maskedPrompt category subcategory : String) : String :=
  maskedPrompt ++
  "\n        Incident (masked): " ++ subcategory ++
  "\n        Hypothesis: " ++ category ++
  "\n        Question: What is the value of X in the Incident? (If not applicable, respond \x27Unknown\x27)\n        \n        OUTPUT:\n        Category: [NIST code]\n        Explanation: [Justification for the chosen category]\n        "

/-- Early-return record of the rectification loop (`qualidade >=
limite_qualidade` branch). -/
def prp_record (incident_id informacoes categoria explicacao : String)
    (qualidade : Rat) (iteracao : Nat) : PRPRecord :=
  { id := incident_id, informacoes_das_colunas := informacoes,
    categoria := categoria, explicacao := explicacao,
    qualidade := qualidade, iteracao := iteracao }

/-- Inner `for subcat in subcategory` loop of
`ProgressiveRectificationPlugin.execute`: either an early-converged
record (left) or the candidate category carried to the next outer
attempt (right).  `rectLog` accumulates, for each rectification call
made, the category just rejected and the exact prompt sent — the
`categoria_rejectada = ',' + categoria_atual` assignment of the source
overwrites, so each prompt names only the latest rejected category. -/
def progressive_rectification_inner (responses : Nat → String)
    (score : String → String → Rat) (prompt informacoes incident_id a0_explanation : String)
    (limite_qualidade : Rat) (attempt : Nat) (subcats : List String)
    (categoria_atual : String) (calls : Nat) (rectLog : List (String × String)) :
    Except PyErr (Sum (PRPRecord × Nat × List (String × String))
      (String × Nat × List (String × String))) :=
  match subcats with
  | [] => Except.ok (Sum.inr (categoria_atual, calls, rectLog))
  | subcat :: rest =>
    let categoria_anterior := categoria_atual
    let (incidente_mascarado, calls1) :=
      send_prompt responses calls (build_mask_prompt prompt subcat)
    let (vresp, calls2) := send_prompt responses calls1
      (build_validation_prompt incidente_mascarado categoria_anterior subcat)
    match extract_security_incidents vresp with
    | Except.error e => Except.error e
    | Except.ok vinc =>
      let categoria_atual := vinc.Category
      let qualidade := score categoria_anterior categoria_atual
      if limite_qualidade ≤ qualidade then
        Except.ok (Sum.inl (prp_record incident_id informacoes categoria_atual
          a0_explanation qualidade (attempt + 1), calls2, rectLog))
      else
        let categoria_rejectada := "," ++ categoria_atual
        let rectification_prompt := build_rectification_prompt prompt categoria_rejectada
        let (rresp, calls3) := send_prompt responses calls2 rectification_prompt
        match extract_security_incidents rresp with
        | Except.error e => Except.error e
        | Except.ok rinc =>
          progressive_rectification_inner responses score prompt informacoes
            incident_id a0_explanation limite_qualidade attempt rest rinc.Category
            calls3 (rectLog ++ [(categoria_atual, rectification_prompt)])

/-- Outer `while attempt < max_iter` loop, unfolded on the remaining
attempt count `gas = max_iter - attempt`; loop exhaustion emits the
non-converged record with `qualidade 0.0` and `iteracao = max_iter`. -/
def progressive_rectification_outer (responses : Nat → String)
    (score : String → String → Rat) (prompt informacoes incident_id a0_explanation : String)
    (max_iter : Nat) (limite_qualidade : Rat) (attempt : Nat)
    (categoria_atual : String) (calls : Nat) (rectLog : List (String × String))
    (gas : Nat) : Except PyErr (List PRPRecord × Nat × List (String × String)) :=
  match gas with
  | 0 =>
    Except.ok ([prp_record incident_id informacoes categoria_atual
      a0_explanation 0 max_iter], calls, rectLog)
  | gas + 1 =>
    let subcategory := get_subcategories categoria_atual
    match progressive_rectification_inner responses score prompt informacoes
      incident_id a0_explanation limite_qualidade attempt subcategory
      categoria_atual calls rectLog with
    | Except.error e => Except.error e
    | Except.ok (Sum.inl (rec, calls2, log2)) => Except.ok ([rec], calls2, log2)
    | Except.ok (Sum.inr (cat2, calls2, log2)) =>
      progressive_rectification_outer responses score prompt informacoes
        incident_id a0_explanation max_iter limite_qualidade (attempt + 1)
        cat2 calls2 log2 gas

/-- Source `ProgressiveRectificationPlugin.execute`
(`src/plugins/prompts/progressive_rectification.py`): initial call and
extraction (`a_0`), then the outer/inner validation loop. -/
def progressive_rectification_execute (responses : Nat → String)
    (score : String → String → Rat) (prompt : String) (data_row : DataRow)
    (columns : List String) (incident_id : String) (max_iter : Nat)
    (limite_qualidade : Rat) :
    Except PyErr (List PRPRecord × Nat × List (String × String)) :=
  let informacoes_das_colunas := build_incident_info data_row columns
  let (r_0, calls1) := send_prompt responses 0 (prompt ++ " " ++ output_format)
  match extract_security_incidents r_0 with
  | Except.error e => Except.error e
  | Except.ok a_0 =>
    progressive_rectification_outer responses score prompt informacoes_das_colunas
      incident_id a_0.Explanation max_iter limite_qualidade 0 a_0.Category
      calls1 [] max_iter

/-! ### Hypothesis Testing (`src/plugins/prompts/hypothesis_testing.py`) -/

/-- The fixed enumeration `categories = [f"CAT{i}" for i in range(1, 13)]`. -/
def ht_categories : List String :=
  ["CAT1", "CAT2", "CAT3", "CAT4", "CAT5", "CAT6", "CAT7", "CAT8", "CAT9",
   "CAT10", "CAT11", "CAT12"]

/-- Helper: joining keywords with a comma and a space (`str.join`). -/
def joinByCommaSpace (parts : List String) : String :=
  match parts with
  | [] => ""
  | p :: rest => rest.foldl (fun acc q => acc ++ ", " ++ q) p

/-- The hypothesis-testing prompt `prompt_llm` built for one tested
category. -/
def build_htp_prompt (prompt category keywords_str : String) : String :=
  "\n            Security Incident Analysis System - HTP\n\n            Incident Description:\n            \"" ++ prompt ++
  "\"\n\n            Instructions:\n            For NIST category Considered tha Category: " ++ category ++
  " and keyword: " ++ keywords_str ++
  " perform the following steps:\n\n            1. True Hypothesis:\n               - Assume the incident belongs to this category. Justify based on the description and keywords.\n               - Indicate whether the hypothesis is SUPPORTED or NOT SUPPORTED.\n\n            2. False Hypothesis:\n               - Assume the incident does NOT belong to this category. Justify based on the lack of evidence.\n               - Indicate whether the hypothesis is SUPPORTED or NOT SUPPORTED.\n            \n            Return the hypotheses in the following format:\n                True Hypothesis:[SUPPORTED/NOT SUPPORTED] \n                False Hypothesis:[SUPPORTED/NOT SUPPORTED]\n            \n            Final Classification Decision:\n              - If the True Hypothesis is SUPPORTED and the False Hypothesis is NOT SUPPORTED, return:\n                Category: same " ++ category ++
  "\n                Explanation: [Justification for the chosen same considered " ++ category ++
  "]\n              - Otherwise, return \"UNKNOWN\" as the final classification.\n                Category: UNKNOWN\n                Explanation: UNKNOWN    \n            "

/-- Fall-through record of `HypothesisTestingPlugin.execute` when no
category is confirmed. -/
def htp_unknown_record (incident_id incident : String) (max_iter : Nat) : HTPRecord :=
  { id := incident_id, informacoes_das_colunas := incident,
    categoria := "UNKNOWN",
    explicacao := "Nenhuma categoria foi confirmada através do teste de hipóteses",
    categoria_testada := "ALL", rouge := 0, iteracao := max_iter }

/-- The `while i < len(categories) and i < max_iter` loop of
`HypothesisTestingPlugin.execute`, unfolded on fuel.  The loop variable
`i` increases by 1 each pass, so 12 units of fuel always outlast the
`i < 12` conjunct; at fuel 0 the guard is checked once more so the
fall-through is still taken correctly.  The Python local `incident_id`
is assigned (from `kwargs`) only inside the loop body, yet the
fall-through record references it: `bound_id` tracks whether that
assignment has happened, and the fall-through raises `UnboundLocalError`
when it has not — which is the case exactly when no iteration ever ran
(`max_iter = 0`). -/
def hypothesis_testing_loop (responses : Nat → String)
    (score : String → String → Rat) (prompt incident incident_id : String)
    (max_iter : Nat) (limite_qualidade : Rat) (i : Nat) (calls : Nat)
    (bound_id : Option String) (gas : Nat) : Except PyErr (List HTPRecord × Nat) :=
  match gas with
  | 0 =>
    match bound_id with
    | some bid => Except.ok ([htp_unknown_record bid incident max_iter], calls)
    | none => Except.error PyErr.unboundLocalError
  | gas + 1 =>
    if i < ht_categories.length ∧ i < max_iter then
      let category := ht_categories.getD i ""
      let keywords := get_subcategories category
      let keywords_str := joinByCommaSpace keywords
      let (hipoteses, calls2) :=
        send_prompt responses calls (build_htp_prompt prompt category keywords_str)
      match extract_security_incidents hipoteses with
      | Except.error e => Except.error e
      | Except.ok incident_info =>
        let result_cat := incident_info.Category
        let rouge_score := score result_cat category
        if limite_qualidade ≤ rouge_score then
          Except.ok ([{ id := incident_id, informacoes_das_colunas := incident,
                        categoria := result_cat,
                        explicacao := incident_info.Explanation,
                        categoria_testada := category,
                        rouge := rouge_score, iteracao := i + 1 }], calls2)
        else
          hypothesis_testing_loop responses score prompt incident incident_id
            max_iter limite_qualidade (i + 1) calls2 (some incident_id) gas
    else
      match bound_id with
      | some bid => Except.ok ([htp_unknown_record bid incident max_iter], calls)
      | none => Except.error PyErr.unboundLocalError

/-- Source `HypothesisTestingPlugin.execute`
(`src/plugins/prompts/hypothesis_testing.py`); the loop starts with the
local `incident_id` unbound. -/
def hypothesis_testing_execute (responses : Nat → String)
    (score : String → String → Rat) (prompt : String) (data_row : DataRow)
    (columns : List String) (incident_id : String) (max_iter : Nat)
    (limite_qualidade : Rat) : Except PyErr (List HTPRecord × Nat) :=
  let incident := build_incident_info data_row columns
  hypothesis_testing_loop responses score prompt incident incident_id max_iter
    limite_qualidade 0 0 none ht_categories.length

/-! ## Incident runner (`src/core/framework.py`, `_process_all_incidents`)
The technique call is abstracted as `execTech : DataRow -> Except String
(List ρ)`: an `Except.error msg` models any exception raised while
processing that row (its message being `str(e)`).  Each produced entry of
the flat result list is either a technique record or the substituted
error dict. -/

/-- One entry of the aggregated result list: a technique record, or the
error dict `{id, informacoes_das_colunas, categoria: "ERROR",
explicacao, erro: True}` substituted on a per-row failure. -/
inductive RunnerItem (ρ : Type) where
  | record (r : ρ) : RunnerItem ρ
  | err (id informacoes_das_colunas categoria explicacao : String) (erro : Bool) : RunnerItem ρ
deriving DecidableEq, Repr

/-- Row id resolution of the runner: `row.get("id")` with the
`"row_{index}"` fallback when the value is absent/NaN. -/
def resolve_incident_id (row : DataRow) : String :=
  match rowGet row "id" with
  | some (some v) => v
  | _ => "row_" ++ toString row.index

/-- Per-row body of `_process_all_incidents`: run the technique inside
`try`, spreading its records into the result list, or substitute the
single error record in the `except` branch.  (The id-backfill loop of the
source is a no-op for the four techniques, all of which set `id`.) -/
def process_row {ρ : Type} (execTech : DataRow → Except String (List ρ))
    (columns : List String) (row : DataRow) : List (RunnerItem ρ) :=
  match execTech row with
  | Except.ok rs => rs.map RunnerItem.record
  | Except.error msg =>
    [RunnerItem.err (resolve_incident_id row) (build_incident_info row columns)
      "ERROR" ("Erro no processamento: " ++ msg) true]

/-- Inner `for index, row in df.iterrows()` loop over one dataframe. -/
def process_df {ρ : Type} (execTech : DataRow → Except String (List ρ))
    (columns : List String) (df : List DataRow) : List (RunnerItem ρ) :=
  df.flatMap (process_row execTech columns)

/-- Source `_process_all_incidents` (`src/core/framework.py`): nested
iteration over the loaded dataframes and their rows, aggregating all
records into one flat list, with per-row exception isolation. -/
def process_all_incidents {ρ : Type} (execTech : DataRow → Except String (List ρ))
    (columns : List String) (dataframes : List (List DataRow)) : List (RunnerItem ρ) :=
  dataframes.flatMap (process_df execTech columns)

/-! ## Helper lemmas -/

/-- Key found by last-occurrence lookup is a member key, so the `in`
check succeeds. -/
theorem objLookup_any (kvs : List (String × Json)) (k : String) (v : Json)
    (h : objLookup kvs k = some v) : kvs.any (fun kv => kv.1 = k) = true := by
  induction kvs with
  | nil => simp [objLookup] at h
  | cons hd tl ih =>
    simp only [objLookup] at h
    simp only [List.any_cons, Bool.or_eq_true, decide_eq_true_eq]
    cases htl : objLookup tl k with
    | some w =>
      rw [htl] at h
      cases h
      exact Or.inr (by simpa using ih htl)
    | none =>
      rw [htl] at h
      by_cases hk : hd.1 = k
      · exact Or.inl hk
      · simp [hk] at h

/-- On the JSON path with both keys bound to strings, extraction returns
the stripped values directly. -/
theorem extract_json_path (texto : String) (kvs : List (String × Json)) (c e : String)
    (hp : parseJson texto = some (Json.obj kvs))
    (hc : objLookup kvs "Category" = some (Json.str c))
    (he : objLookup kvs "Explanation" = some (Json.str e)) :
    extract_security_incidents texto =
      Except.ok { Category := pyStrip c, Explanation := pyStrip e } := by
  have hac := objLookup_any kvs "Category" _ hc
  have hae := objLookup_any kvs "Explanation" _ he
  simp only [extract_security_incidents, hp, pyIn, hac, hae, if_true,
    pyGetItem, hc, he, pyStripAttr]

/-- On the regex path (text not valid JSON) the extractor is total. -/
theorem extract_regex_path (texto : String) (h : parseJson texto = none) :
    extract_security_incidents texto = Except.ok (extractViaRegex texto) := by
  simp only [extract_security_incidents, h]

/-! ## Concrete run material used by witnesses and counterexamples -/

/-- Oracle taking responses from a finite list (empty string past its
end). -/
def oracleOf (l : List String) : Nat → String :=
  fun k => l.getD k ""

/-- Scorer standing in for `calculate_rouge_score` in concrete runs:
1 for equal strings, 0 otherwise (any function of two strings is an
admissible scorer; theorems quantify over it). -/
def eqScore : String → String → Rat :=
  fun a b => if a = b then 1 else 0

/-- Sample input row used in concrete runs. -/
def sampleRow : DataRow :=
  { index := 0, entries := [("id", some "42"), ("desc", some "incident text")] }

/-- Response sequence driving Progressive Rectification through two
quality failures (rejecting CAT2, then CAT4) before converging on
CAT5. -/
def prCexResponses : Nat → String :=
  oracleOf
    ["Category: CAT1\nExplanation: E",
     "m1",
     "Category: CAT2\nExplanation: x",
     "Category: CAT3\nExplanation: x",
     "m2",
     "Category: CAT4\nExplanation: x",
     "Category: CAT5\nExplanation: x",
     "m3",
     "Category: CAT5\nExplanation: x"]

/-! ## Claim C4 -/

/-- Claim C4: extraction returns a Category/Explanation pair on every
text that is not valid JSON (the regex fallback is total), but raises —
rather than returning a pair or the lowercase `unknown` sentinel — on
inputs that parse as JSON without string values under both keys:
`AttributeError` for `{"Category": 1, "Explanation": "x"}` (from
`.strip()` on an `int`) and `TypeError` for a JSON string literal whose
text contains both the words `Category` and `Explanation` (from indexing
a `str` with a `str`). -/
theorem C4_extraction_raises_on_degenerate_json :
    extract_security_incidents "\x7b\"Category\": 1, \"Explanation\": \"x\"\x7d" =
      Except.error PyErr.attributeError ∧
    extract_security_incidents "\"Category and Explanation\"" =
      Except.error PyErr.typeError ∧
    ∀ texto : String, parseJson texto = none →
      ∃ out, extract_security_incidents texto = Except.ok out := by
  refine ⟨rfl, rfl, fun texto h => ?_⟩
  exact ⟨extractViaRegex texto, extract_regex_path texto h⟩

/-- Witness for C4: the universally quantified part applied at the
non-JSON input `"hello"`. -/
theorem C4_witness :
    ∃ out, extract_security_incidents "hello" = Except.ok out :=
  C4_extraction_raises_on_degenerate_json.2.2 "hello" rfl

/-! ## Claim C5 -/

/-- Counterexample to C5 as stated: the text parses as a JSON object
containing both keys `Category` and `Explanation`, yet extraction raises
`AttributeError` (the value under `Category` is a boolean, and
`True.strip()` does not exist) instead of returning the two values. -/
theorem C5_counterexample :
    parseJson "\x7b\"Category\": true, \"Explanation\": \"x\"\x7d" =
      some (Json.obj [("Category", Json.bool true), ("Explanation", Json.str "x")]) ∧
    extract_security_incidents "\x7b\"Category\": true, \"Explanation\": \"x\"\x7d" =
      Except.error PyErr.attributeError :=
  ⟨rfl, rfl⟩

/-- Claim C5 (amended: the values under the two keys must be strings):
for every text that parses as a JSON object binding both exact keys
`Category` and `Explanation` to string values, extraction returns those
two strings with surrounding whitespace stripped and otherwise verbatim —
the regex step is bypassed and no CAT canonicalization touches the
category value. -/
theorem C5_json_path_returns_trimmed_values (texto : String)
    (kvs : List (String × Json)) (c e : String)
    (hp : parseJson texto = some (Json.obj kvs))
    (hc : objLookup kvs "Category" = some (Json.str c))
    (he : objLookup kvs "Explanation" = some (Json.str e)) :
    extract_security_incidents texto =
      Except.ok { Category := pyStrip c, Explanation := pyStrip e } :=
  extract_json_path texto kvs c e hp hc he

/-- Witness for C5: the JSON path on a concrete response text, stripping
whitespace around `CAT2` but applying no other normalization. -/
theorem C5_witness :
    extract_security_incidents "\x7b\"Category\": \" CAT2 \", \"Explanation\": \"ransomware found\"\x7d" =
      Except.ok { Category := pyStrip " CAT2 ", Explanation := pyStrip "ransomware found" } :=
  C5_json_path_returns_trimmed_values _
    [("Category", Json.str " CAT2 "), ("Explanation", Json.str "ransomware found")]
    " CAT2 " "ransomware found" rfl rfl rfl

/-! ## Claim C6 -/

/-- Claim C6: on every non-JSON text where the Category/Explanation
pattern (dot-matches-newline) has matches, extraction returns the last
captures of the last match — asterisks and newlines stripped, the
category canonicalized — not those of any earlier match. -/
theorem C6_last_match_is_authoritative (texto : String)
    (cap1 cap2 : List Char)
    (hp : parseJson texto = none)
    (_hn : 2 ≤ (findMatches texto.data).length)
    (hl : (findMatches texto.data).getLast? = some (cap1, cap2)) :
    extract_security_incidents texto =
      Except.ok { Category := extract_cat (cleanCapture cap1),
                  Explanation := cleanCapture cap2 } := by
  rw [extract_regex_path texto hp]
  simp only [extractViaRegex, hl]

/-- Witness for C6: a two-block response; the result comes from the
second block (`cat2 likely` / `b here`), not the first. -/
theorem C6_witness :
    extract_security_incidents
        "Category: CAT1\nExplanation: a\nCategory: cat2 likely\nExplanation: b here\n" =
      Except.ok { Category := extract_cat (cleanCapture "cat2 likely".data),
                  Explanation := cleanCapture "b here".data } :=
  C6_last_match_is_authoritative _ "cat2 likely".data "b here".data rfl
    (by decide) (by decide)

/-! ## Claim C8 -/

/-- Claim C8: when technique execution raises for one row, the runner
substitutes exactly one error record — id, rendered column info, category
`ERROR`, an explanation carrying the exception message, `erro = true` —
for that row, and every other row of the batch (in this or any other
loaded dataframe) contributes exactly the records its own execution
produces. -/
theorem C8_row_failure_is_isolated {ρ : Type}
    (execTech : DataRow → Except String (List ρ)) (columns : List String)
    (dfs1 dfs2 : List (List DataRow)) (pre post : List DataRow)
    (row : DataRow) (msg : String)
    (h : execTech row = Except.error msg) :
    process_all_incidents execTech columns (dfs1 ++ (pre ++ row :: post) :: dfs2) =
      process_all_incidents execTech columns dfs1 ++
      (process_df execTech columns pre ++
        ([RunnerItem.err (resolve_incident_id row)
            (build_incident_info row columns) "ERROR"
            ("Erro no processamento: " ++ msg) true] ++
          process_df execTech columns post)) ++
      process_all_incidents execTech columns dfs2 := by
  simp only [process_all_incidents, process_df, List.flatMap_append,
    List.flatMap_cons, List.append_assoc]
  simp only [process_row, h]

/-- Witness technique for C8: fails on the row with index 1, returns the
row index for other rows. -/
def c8Exec : DataRow → Except String (List Nat) :=
  fun row => if row.index = 1 then Except.error "boom" else Except.ok [row.index]

/-- Second and third sample rows for the C8 batch. -/
def sampleRow1 : DataRow :=
  { index := 1, entries := [("desc", some "bad row")] }

/-- Third sample row for the C8 batch. -/
def sampleRow2 : DataRow :=
  { index := 2, entries := [("id", some "77"), ("desc", some "fine")] }

/-- Witness for C8: a three-row batch whose middle row raises; the other
records of the two other rows are untouched and the failing row yields the single
error record (with the `row_1` fallback id, since that row has no `id`
field). -/
theorem C8_witness :
    process_all_incidents c8Exec ["desc"]
        ([] ++ (([sampleRow] ++ sampleRow1 :: [sampleRow2]) :: [])) =
      process_all_incidents c8Exec ["desc"] [] ++
      (process_df c8Exec ["desc"] [sampleRow] ++
        ([RunnerItem.err (resolve_incident_id sampleRow1)
            (build_incident_info sampleRow1 ["desc"]) "ERROR"
            ("Erro no processamento: " ++ "boom") true] ++
          process_df c8Exec ["desc"] [sampleRow2])) ++
      process_all_incidents c8Exec ["desc"] [] :=
  C8_row_failure_is_isolated c8Exec ["desc"] [] [] [sampleRow] [sampleRow2]
    sampleRow1 "boom" rfl

/-! ## Claim C9 -/

/-- Claim C9: Progressive Hint with `max_hints = 0` makes exactly one
model call and returns the single record built from the extraction of
the first response, with rouge score `0.0` and iteration `0` — no hint round
happens. -/
theorem C9_progressive_hint_zero_hints (responses : Nat → String)
    (score : String → String → Rat) (prompt : String) (data_row : DataRow)
    (columns : List String) (incident_id : String) (limite_rouge : Rat)
    (inc : SecIncident)
    (h : extract_security_incidents (responses 0) = Except.ok inc) :
    progressive_hint_execute responses score prompt data_row columns incident_id
        0 limite_rouge =
      Except.ok ([{ id := incident_id,
                    informacoes_das_colunas := build_incident_info data_row columns,
                    categoria := inc.Category,
                    explicacao := inc.Explanation,
                    rouge := 0,
                    iteracao := 0 }], 1) := by
  simp [progressive_hint_execute, send_prompt, h]

/-- Witness for C9: a concrete oracle whose first response extracts to
`CAT1` / `e0`. -/
theorem C9_witness :
    progressive_hint_execute (oracleOf ["Category: CAT1\nExplanation: e0"])
        eqScore "P" sampleRow ["desc"] "42" 0 (9 / 10) =
      Except.ok ([{ id := "42",
                    informacoes_das_colunas := build_incident_info sampleRow ["desc"],
                    categoria := ({ Category := "CAT1", Explanation := "e0" } : SecIncident).Category,
                    explicacao := ({ Category := "CAT1", Explanation := "e0" } : SecIncident).Explanation,
                    rouge := 0,
                    iteracao := 0 }], 1) :=
  C9_progressive_hint_zero_hints (oracleOf ["Category: CAT1\nExplanation: e0"])
    eqScore "P" sampleRow ["desc"] "42" (9 / 10)
    { Category := "CAT1", Explanation := "e0" } rfl

/-! ## Loop lemmas for the cardinality/termination claims -/

/-- The Progressive Hint loop, entered with at least one iteration left
(`gas = max_hints - i ≥ 1`), always returns exactly one record, whose
iteration count is at most `max_hints` and whose category and explanation
are those extracted from the last response received (the response of the
final model call, index `c - 1`). -/
theorem progressive_hint_loop_card (responses : Nat → String)
    (score : String → String → Rat) (fp info iid : String) (max_hints : Nat)
    (limite : Rat) :
    ∀ gas i resp calls rs c, i + gas = max_hints → 1 ≤ gas →
      progressive_hint_loop responses score fp info iid max_hints limite i resp
        calls gas = Except.ok (rs, c) →
      ∃ r inc, rs = [r] ∧ r.iteracao ≤ max_hints ∧
        extract_security_incidents (responses (c - 1)) = Except.ok inc ∧
        r.categoria = inc.Category ∧ r.explicacao = inc.Explanation := by
  intro gas
  induction gas with
  | zero => intro i resp calls rs c _ h2 _; omega
  | succ g ih =>
    intro i resp calls rs c hsum _ h
    simp only [progressive_hint_loop, send_prompt] at h
    cases he1 : extract_security_incidents resp with
    | error e => rw [he1] at h; simp at h
    | ok prev =>
      rw [he1] at h
      simp only at h
      cases he2 : extract_security_incidents (responses calls) with
      | error e => rw [he2] at h; simp at h
      | ok nova =>
        rw [he2] at h
        simp only at h
        by_cases hc : i + 1 = max_hints ∨ limite ≤ score prev.Category nova.Category
        · rw [if_pos hc] at h
          cases h
          exact ⟨_, nova, rfl, by simp only [HintRecord.mk.injEq]; omega,
            by simpa using he2, rfl, rfl⟩
        · rw [if_neg hc] at h
          have hg : 1 ≤ g := by
            rcases Nat.eq_zero_or_pos g with hg0 | hg0
            · exfalso; exact hc (Or.inl (by omega))
            · exact hg0
          exact ih (i + 1) (responses calls) (calls + 1) rs c (by omega) hg h

/-- The Self Hint refinement loop, entered with at least one iteration
left, always returns exactly one record, whose iteration count is at
most `max_iter` and whose category and explanation are those extracted
from the last response received. -/
theorem self_hint_loop_card (responses : Nat → String)
    (score : String → String → Rat) (prompt info iid : String) (max_iter : Nat)
    (limite : Rat) :
    ∀ gas i plano cat calls rs c, i + gas = max_iter → 1 ≤ gas →
      self_hint_loop responses score prompt info iid max_iter limite i plano cat
        calls gas = Except.ok (rs, c) →
      ∃ r inc, rs = [r] ∧ r.iteracao ≤ max_iter ∧
        extract_security_incidents (responses (c - 1)) = Except.ok inc ∧
        r.categoria = inc.Category ∧ r.explicacao = inc.Explanation := by
  intro gas
  induction gas with
  | zero => intro i plano cat calls rs c _ h2 _; omega
  | succ g ih =>
    intro i plano cat calls rs c hsum _ h
    simp only [self_hint_loop, send_prompt] at h
    cases he1 : extract_security_incidents (responses calls) with
    | error e => rw [he1] at h; simp at h
    | ok incident =>
      rw [he1] at h
      simp only at h
      by_cases hc : i + 1 = max_iter ∨ limite ≤ score cat incident.Category
      · rw [if_pos hc] at h
        cases h
        exact ⟨_, incident, rfl, by simp only [HintRecord.mk.injEq]; omega,
          by simpa using he1, rfl, rfl⟩
      · rw [if_neg hc] at h
        have hg : 1 ≤ g := by
          rcases Nat.eq_zero_or_pos g with hg0 | hg0
          · exfalso; exact hc (Or.inl (by omega))
          · exact hg0
        exact ih (i + 1) (responses (calls + 1)) incident.Category (calls + 1 + 1)
          rs c (by omega) hg h

/-- State tracked through the Progressive Rectification inner loop: an
early-converged record carries iteration `attempt + 1`, the explanation
fixed at `a_0`, and the category extracted from the last response
received; a completed pass hands on a candidate equal to the category
extracted from the last response received. -/
theorem progressive_rectification_inner_state (responses : Nat → String)
    (score : String → String → Rat) (prompt info iid a0e : String)
    (limite : Rat) (attempt : Nat) :
    ∀ subcats cat calls log res,
      (∃ pinc, extract_security_incidents (responses (calls - 1)) = Except.ok pinc ∧
        cat = pinc.Category) →
      progressive_rectification_inner responses score prompt info iid a0e limite
        attempt subcats cat calls log = Except.ok res →
      (match res with
       | Sum.inl (r, calls2, _) =>
         r.iteracao = attempt + 1 ∧ r.explicacao = a0e ∧
         ∃ inc, extract_security_incidents (responses (calls2 - 1)) = Except.ok inc ∧
           r.categoria = inc.Category
       | Sum.inr (cat2, calls2, _) =>
         ∃ inc, extract_security_incidents (responses (calls2 - 1)) = Except.ok inc ∧
           cat2 = inc.Category) := by
  intro subcats
  induction subcats with
  | nil =>
    intro cat calls log res hprev h
    simp only [progressive_rectification_inner] at h
    cases h
    exact hprev
  | cons subcat rest ih =>
    intro cat calls log res hprev h
    simp only [progressive_rectification_inner, send_prompt] at h
    cases he1 : extract_security_incidents (responses (calls + 1)) with
    | error e => rw [he1] at h; simp at h
    | ok vinc =>
      rw [he1] at h
      simp only at h
      by_cases hc : limite ≤ score cat vinc.Category
      · rw [if_pos hc] at h
        cases h
        exact ⟨rfl, rfl, vinc, by simpa using he1, rfl⟩
      · rw [if_neg hc] at h
        cases he2 : extract_security_incidents (responses (calls + 1 + 1)) with
        | error e => rw [he2] at h; simp at h
        | ok rinc =>
          rw [he2] at h
          simp only at h
          exact ih _ _ _ _ ⟨rinc, by simpa using he2, rfl⟩ h

/-- The Progressive Rectification outer loop, entered with a candidate
equal to the category extracted from the last response received, always
returns exactly one record, with iteration count at most `max_iter`,
explanation fixed at `a_0`, and category extracted from the last
response received. -/
theorem progressive_rectification_outer_card (responses : Nat → String)
    (score : String → String → Rat) (prompt info iid a0e : String)
    (max_iter : Nat) (limite : Rat) :
    ∀ gas attempt cat calls log rs c log2, attempt + gas = max_iter →
      (∃ pinc, extract_security_incidents (responses (calls - 1)) = Except.ok pinc ∧
        cat = pinc.Category) →
      progressive_rectification_outer responses score prompt info iid a0e
        max_iter limite attempt cat calls log gas = Except.ok (rs, c, log2) →
      ∃ r rinc, rs = [r] ∧ r.iteracao ≤ max_iter ∧ r.explicacao = a0e ∧
        extract_security_incidents (responses (c - 1)) = Except.ok rinc ∧
        r.categoria = rinc.Category := by
  intro gas
  induction gas with
  | zero =>
    intro attempt cat calls log rs c log2 _ hprev h
    simp only [progressive_rectification_outer] at h
    cases h
    obtain ⟨pinc, hext, hcat⟩ := hprev
    exact ⟨_, pinc, rfl, Nat.le_refl _, rfl, hext, hcat⟩
  | succ g ih =>
    intro attempt cat calls log rs c log2 hsum hprev h
    simp only [progressive_rectification_outer] at h
    cases hi : progressive_rectification_inner responses score prompt info iid
        a0e limite attempt (get_subcategories cat) cat calls log with
    | error e => rw [hi] at h; simp at h
    | ok res =>
      rw [hi] at h
      have hstate := progressive_rectification_inner_state responses score prompt
        info iid a0e limite attempt (get_subcategories cat) cat calls log res
        hprev hi
      cases res with
      | inl early =>
        obtain ⟨r, calls2, log3⟩ := early
        obtain ⟨hiter, hexpl, inc, hext, hcat⟩ := hstate
        simp only at h
        cases h
        exact ⟨r, inc, rfl, by omega, hexpl, hext, hcat⟩
      | inr cont =>
        obtain ⟨cat2, calls2, log3⟩ := cont
        exact ih (attempt + 1) cat2 calls2 log3 rs c log2 (by omega) hstate h

/-! ## Claim C2 -/

/-- Response sequence driving Progressive Rectification to its iteration
ceiling (`max_iter = 1`, keyword list of `UNKNOWN`, six rejections of
CAT9) with a final rectification response whose explanation `LAST`
differs from the initial explanation `E0`. -/
def prCeilResponses : Nat → String :=
  oracleOf
    ["Category: UNKNOWN\nExplanation: E0",
     "m", "Category: CAT9\nExplanation: V", "Category: UNKNOWN\nExplanation: R",
     "m", "Category: CAT9\nExplanation: V", "Category: UNKNOWN\nExplanation: R",
     "m", "Category: CAT9\nExplanation: V", "Category: UNKNOWN\nExplanation: R",
     "m", "Category: CAT9\nExplanation: V", "Category: UNKNOWN\nExplanation: R",
     "m", "Category: CAT9\nExplanation: V", "Category: UNKNOWN\nExplanation: R",
     "m", "Category: CAT9\nExplanation: V", "Category: CAT7\nExplanation: LAST"]

/-- Counterexample to C2 as stated, in two parts.  First, Self Hint
invoked with iteration ceiling `max_iter = 0` makes its two set-up model
calls and then returns an empty record list — zero records for the
incident, not exactly one.  Second, a Progressive Rectification run that
reaches its ceiling emits the explanation of the initial extraction
(`E0`), not the last-seen explanation: the extraction of the last
response received (call 18 of 19) is `CAT7`/`LAST`, and while the
emitted category is that last-seen `CAT7`, the emitted explanation stays
`E0 ≠ LAST`. -/
theorem C2_counterexample :
    self_hint_execute (oracleOf ["plan", "Category: CAT1\nExplanation: e0"])
        eqScore "P" sampleRow ["desc"] "42" 0 (9 / 10) =
      Except.ok ([], 2) ∧
    progressive_rectification_execute prCeilResponses eqScore "P" sampleRow
        ["desc"] "42" 1 1 =
      Except.ok ([prp_record "42" "desc: incident text" "CAT7" "E0" 0 1], 19,
        List.replicate 6 ("CAT9", build_rectification_prompt "P" ",CAT9")) ∧
    extract_security_incidents (prCeilResponses 18) =
      Except.ok { Category := "CAT7", Explanation := "LAST" } ∧
    "E0" ≠ "LAST" :=
  ⟨rfl, rfl, rfl, by decide⟩

/-- Claim C2 (amended: for Self Hint the ceiling must be at least 1 —
with `max_iter = 0` Self Hint returns an empty record list — and the
record of Progressive Rectification carries the explanation of the
initial extraction `a_0`, not the last-seen one): every run of
Progressive Hint or Progressive Rectification with any ceiling `N ≥ 0`,
and of Self Hint with `N ≥ 1`, that returns normally returns exactly one
record whose iteration field never exceeds `N`; that record — also when
the ceiling is reached without convergence — carries the category
extracted from the last response received (and, for Progressive Hint and
Self Hint, its explanation too, while Progressive Rectification keeps
the explanation of `a_0`). -/
theorem C2_single_record_iteration_bounded :
    (∀ (responses : Nat → String) (score : String → String → Rat)
        (prompt : String) (row : DataRow) (cols : List String) (iid : String)
        (N : Nat) (limite : Rat) (rs : List HintRecord) (c : Nat),
      progressive_hint_execute responses score prompt row cols iid N limite =
        Except.ok (rs, c) →
      ∃ r inc, rs = [r] ∧ r.iteracao ≤ N ∧
        extract_security_incidents (responses (c - 1)) = Except.ok inc ∧
        r.categoria = inc.Category ∧ r.explicacao = inc.Explanation) ∧
    (∀ (responses : Nat → String) (score : String → String → Rat)
        (prompt : String) (row : DataRow) (cols : List String) (iid : String)
        (N : Nat) (limite : Rat) (rs : List PRPRecord) (c : Nat)
        (log : List (String × String)),
      progressive_rectification_execute responses score prompt row cols iid N
        limite = Except.ok (rs, c, log) →
      ∃ a0 r rinc, extract_security_incidents (responses 0) = Except.ok a0 ∧
        rs = [r] ∧ r.iteracao ≤ N ∧ r.explicacao = a0.Explanation ∧
        extract_security_incidents (responses (c - 1)) = Except.ok rinc ∧
        r.categoria = rinc.Category) ∧
    (∀ (responses : Nat → String) (score : String → String → Rat)
        (prompt : String) (row : DataRow) (cols : List String) (iid : String)
        (N : Nat) (limite : Rat) (rs : List HintRecord) (c : Nat),
      1 ≤ N →
      self_hint_execute responses score prompt row cols iid N limite =
        Except.ok (rs, c) →
      ∃ r inc, rs = [r] ∧ r.iteracao ≤ N ∧
        extract_security_incidents (responses (c - 1)) = Except.ok inc ∧
        r.categoria = inc.Category ∧ r.explicacao = inc.Explanation) ∧
    (∀ (responses : Nat → String) (score : String → String → Rat)
        (prompt : String) (row : DataRow) (cols : List String) (iid : String)
        (limite : Rat) (inc : SecIncident),
      extract_security_incidents (responses 1) = Except.ok inc →
      self_hint_execute responses score prompt row cols iid 0 limite =
        Except.ok ([], 2)) := by
  refine ⟨?_, ?_, ?_, ?_⟩
  · intro responses score prompt row cols iid N limite rs c h
    by_cases hN : N = 0
    · subst hN
      simp only [progressive_hint_execute, send_prompt, if_pos rfl] at h
      cases he : extract_security_incidents (responses 0) with
      | error e => rw [he] at h; simp at h
      | ok inc =>
        rw [he] at h
        simp only at h
        cases h
        exact ⟨_, inc, rfl, Nat.le_refl _, by simpa using he, rfl, rfl⟩
    · simp only [progressive_hint_execute, send_prompt, if_neg hN] at h
      exact progressive_hint_loop_card responses score _ _ iid N limite N 0
        (responses 0) 1 rs c (by omega) (by omega) h
  · intro responses score prompt row cols iid N limite rs c log h
    simp only [progressive_rectification_execute, send_prompt] at h
    cases he : extract_security_incidents (responses 0) with
    | error e => rw [he] at h; simp at h
    | ok a0 =>
      rw [he] at h
      simp only at h
      obtain ⟨r, rinc, hrs, hiter, hexpl, hext, hcat⟩ :=
        progressive_rectification_outer_card responses score prompt _ iid
          a0.Explanation N limite N 0 a0.Category 1 [] rs c log (by omega)
          ⟨a0, by simpa using he, rfl⟩ h
      exact ⟨a0, r, rinc, rfl, hrs, hiter, hexpl, hext, hcat⟩
  · intro responses score prompt row cols iid N limite rs c hN h
    simp only [self_hint_execute, send_prompt] at h
    cases he : extract_security_incidents (responses 1) with
    | error e => rw [he] at h; simp at h
    | ok first =>
      rw [he] at h
      simp only at h
      exact self_hint_loop_card responses score prompt _ iid N limite N 0
        (responses 0) first.Category 2 rs c (by omega) hN h
  · intro responses score prompt row cols iid limite inc h
    simp only [self_hint_execute, send_prompt, h]
    rfl

/-- Witness for C2: the four conjuncts applied to concrete runs of each
technique (converging runs for the first three, a Self Hint run with
ceiling zero for the last). -/
theorem C2_witness :
    (∃ r inc, [({ id := "42", informacoes_das_colunas := "desc: incident text",
                  categoria := "CAT2", explicacao := "e", rouge := 0,
                  iteracao := 1 } : HintRecord)] = [r] ∧ r.iteracao ≤ 1 ∧
      extract_security_incidents
        (oracleOf ["junk", "Category: CAT2\nExplanation: e"] (2 - 1)) =
        Except.ok inc ∧
      r.categoria = inc.Category ∧ r.explicacao = inc.Explanation) ∧
    (∃ a0 r rinc, extract_security_incidents (prCexResponses 0) = Except.ok a0 ∧
      [prp_record "42" "desc: incident text" "CAT5" "E" 1 1] = [r] ∧
      r.iteracao ≤ 4 ∧ r.explicacao = a0.Explanation ∧
      extract_security_incidents (prCexResponses (9 - 1)) = Except.ok rinc ∧
      r.categoria = rinc.Category) ∧
    (∃ r inc, [({ id := "42", informacoes_das_colunas := "desc: incident text",
                  categoria := "CAT1", explicacao := "e1", rouge := 1,
                  iteracao := 1 } : HintRecord)] = [r] ∧ r.iteracao ≤ 2 ∧
      extract_security_incidents
        (oracleOf ["plan", "Category: CAT1\nExplanation: e0",
          "Category: CAT1\nExplanation: e1"] (3 - 1)) = Except.ok inc ∧
      r.categoria = inc.Category ∧ r.explicacao = inc.Explanation) ∧
    self_hint_execute (oracleOf ["plan", "Category: CAT1\nExplanation: e0"])
        eqScore "P" sampleRow ["desc"] "42" 0 1 = Except.ok ([], 2) :=
  ⟨C2_single_record_iteration_bounded.1
      (oracleOf ["junk", "Category: CAT2\nExplanation: e"]) eqScore "P"
      sampleRow ["desc"] "42" 1 (9 / 10) _ 2 rfl,
   C2_single_record_iteration_bounded.2.1 prCexResponses eqScore "P" sampleRow
      ["desc"] "42" 4 1 _ 9
      [("CAT2", build_rectification_prompt "P" ",CAT2"),
       ("CAT4", build_rectification_prompt "P" ",CAT4")] rfl,
   C2_single_record_iteration_bounded.2.2.1
      (oracleOf ["plan", "Category: CAT1\nExplanation: e0",
        "Category: CAT1\nExplanation: e1"]) eqScore "P" sampleRow ["desc"] "42"
      2 1 _ 3 (by omega) rfl,
   C2_single_record_iteration_bounded.2.2.2
      (oracleOf ["plan", "Category: CAT1\nExplanation: e0"]) eqScore "P"
      sampleRow ["desc"] "42" 1 { Category := "CAT1", Explanation := "e0" }
      rfl⟩

/-- The Hypothesis Testing loop (entered with the call counter tied to
the loop counter and the binding state of the local `incident_id`
determined by whether an iteration has run) returns exactly one record:
either a confirmation at the 1-based index of the tested category
(bounded by 12 and by `max_iter`), carrying the achieved score and having
consumed exactly that many model calls, or the UNKNOWN/ALL fall-through
record with `iteracao = max_iter` after `min 12 max_iter` calls. -/
theorem hypothesis_testing_loop_spec (responses : Nat → String)
    (score : String → String → Rat) (prompt incident iid : String)
    (max_iter : Nat) (limite : Rat) :
    ∀ gas i rs c, i + gas = ht_categories.length → i ≤ max_iter →
      hypothesis_testing_loop responses score prompt incident iid max_iter
        limite i i (if i = 0 then none else some iid) gas = Except.ok (rs, c) →
      ∃ r, rs = [r] ∧
        ((∃ k, 1 ≤ k ∧ k ≤ 12 ∧ k ≤ max_iter ∧
            r.categoria_testada = ht_categories.getD (k - 1) "" ∧
            r.iteracao = k ∧
            r.rouge = score r.categoria r.categoria_testada ∧
            limite ≤ r.rouge ∧ c = k) ∨
         (r.categoria = "UNKNOWN" ∧ r.categoria_testada = "ALL" ∧
            r.rouge = 0 ∧ r.iteracao = max_iter ∧ c = min 12 max_iter)) := by
  intro gas
  induction gas with
  | zero =>
    intro i rs c hsum hle h
    have hi : i = 12 := by
      have : ht_categories.length = 12 := rfl
      omega
    subst hi
    rw [show (if (12 : Nat) = 0 then (none : Option String) else some iid) =
      some iid from rfl] at h
    simp only [hypothesis_testing_loop] at h
    cases h
    exact ⟨_, rfl, Or.inr ⟨rfl, rfl, rfl, rfl, by omega⟩⟩
  | succ g ih =>
    intro i rs c hsum hle h
    simp only [hypothesis_testing_loop, send_prompt] at h
    by_cases hg : i < ht_categories.length ∧ i < max_iter
    · rw [if_pos hg] at h
      cases he : extract_security_incidents (responses i) with
      | error e => rw [he] at h; simp at h
      | ok info =>
        rw [he] at h
        simp only at h
        by_cases hq : limite ≤ score info.Category (ht_categories.getD i "")
        · rw [if_pos hq] at h
          cases h
          refine ⟨_, rfl, Or.inl ⟨i + 1, by omega, ?_, by omega, by simp, rfl,
            rfl, hq, rfl⟩⟩
          have : ht_categories.length = 12 := rfl
          omega
        · rw [if_neg hq] at h
          exact ih (i + 1) rs c (by omega) (by omega) h
    · rw [if_neg hg] at h
      by_cases hi : i = 0
      · subst hi
        rw [show (if (0 : Nat) = 0 then (none : Option String) else some iid) =
          none from rfl] at h
        simp at h
      · rw [show (if i = 0 then (none : Option String) else some iid) =
          some iid from if_neg hi] at h
        simp only at h
        cases h
        have h12 : ht_categories.length = 12 := rfl
        refine ⟨_, rfl, Or.inr ⟨rfl, rfl, rfl, rfl, ?_⟩⟩
        omega

/-! ## Claim C3 -/

/-- Counterexample to C3 as stated: with `max_iter = 13` and no category
ever confirmed, the single UNKNOWN/ALL record carries `iteracao = 13`
(the source writes `max_iter` there), not 12 as the claim requires. -/
theorem C3_counterexample :
    hypothesis_testing_execute (fun _ => "x") (fun _ _ => 0) "P" sampleRow
        ["desc"] "42" 13 1 =
      Except.ok ([{ id := "42", informacoes_das_colunas := "desc: incident text",
                    categoria := "UNKNOWN",
                    explicacao := "Nenhuma categoria foi confirmada através do teste de hipóteses",
                    categoria_testada := "ALL", rouge := 0,
                    iteracao := 13 }], 12) ∧
    (13 : Nat) ≠ 12 :=
  ⟨rfl, by omega⟩

/-- Claim C3 (amended: the iteration of the fall-through record equals
`max_iter`, which is 12 only under the default `max_iter = 12`, and with
`max_iter = 0` execute raises `UnboundLocalError` instead of returning a
record, the local `incident_id` being assigned only inside the loop):
every normally returning run of Hypothesis Testing yields exactly one
record — either a confirmation at some 1-based index `k ≤ 12`,
`k ≤ max_iter`, tagged with the tested category `CATk`, carrying the
achieved score (the computed similarity, which met the threshold) and
iteration `k`, with exactly `k` model calls made so no later category is
sent; or the UNKNOWN record tagged `categoria_testada = "ALL"` with
score 0 and iteration `max_iter` after `min 12 max_iter` calls. -/
theorem C3_hypothesis_testing_single_record :
    (∀ (responses : Nat → String) (score : String → String → Rat)
        (prompt : String) (row : DataRow) (cols : List String) (iid : String)
        (max_iter : Nat) (limite : Rat) (rs : List HTPRecord) (c : Nat),
      hypothesis_testing_execute responses score prompt row cols iid max_iter
        limite = Except.ok (rs, c) →
      ∃ r, rs = [r] ∧
        ((∃ k, 1 ≤ k ∧ k ≤ 12 ∧ k ≤ max_iter ∧
            r.categoria_testada = ht_categories.getD (k - 1) "" ∧
            r.iteracao = k ∧
            r.rouge = score r.categoria r.categoria_testada ∧
            limite ≤ r.rouge ∧ c = k) ∨
         (r.categoria = "UNKNOWN" ∧ r.categoria_testada = "ALL" ∧
            r.rouge = 0 ∧ r.iteracao = max_iter ∧ c = min 12 max_iter))) ∧
    (∀ (responses : Nat → String) (score : String → String → Rat)
        (prompt : String) (row : DataRow) (cols : List String) (iid : String)
        (limite : Rat),
      hypothesis_testing_execute responses score prompt row cols iid 0 limite =
        Except.error PyErr.unboundLocalError) := by
  constructor
  · intro responses score prompt row cols iid max_iter limite rs c h
    exact hypothesis_testing_loop_spec responses score prompt
      (build_incident_info row cols) iid max_iter limite ht_categories.length 0
      rs c rfl (Nat.zero_le _) h
  · intro responses score prompt row cols iid limite
    rfl

/-- Witness for C3: a run whose first hypothesis is confirmed at
iteration 1 with tested category `CAT1` after exactly one call, and the
`max_iter = 0` invocation raising at a concrete input. -/
theorem C3_witness :
    (∃ r, [({ id := "42", informacoes_das_colunas := "desc: incident text",
              categoria := "CAT1", explicacao := "e", categoria_testada := "CAT1",
              rouge := 1, iteracao := 1 } : HTPRecord)] = [r] ∧
      ((∃ k, 1 ≤ k ∧ k ≤ 12 ∧ k ≤ 12 ∧
          r.categoria_testada = ht_categories.getD (k - 1) "" ∧
          r.iteracao = k ∧
          r.rouge = eqScore r.categoria r.categoria_testada ∧
          (1 : Rat) ≤ r.rouge ∧ 1 = k) ∨
       (r.categoria = "UNKNOWN" ∧ r.categoria_testada = "ALL" ∧
          r.rouge = 0 ∧ r.iteracao = 12 ∧ 1 = min 12 12))) ∧
    hypothesis_testing_execute (oracleOf []) eqScore "P" sampleRow ["desc"]
        "42" 0 1 = Except.error PyErr.unboundLocalError :=
  ⟨C3_hypothesis_testing_single_record.1
      (oracleOf ["Category: CAT1\nExplanation: e"]) eqScore "P" sampleRow
      ["desc"] "42" 12 1 _ 1 rfl,
   C3_hypothesis_testing_single_record.2 (oracleOf []) eqScore "P" sampleRow
      ["desc"] "42" 1⟩

/-- When the normalized form of the current candidate keys nothing in the
keyword table, the outer loop spins through all its attempts without
entering the inner loop: no further model calls, candidate, call counter
and rectification log unchanged, final record with quality 0 and
iteration `max_iter`. -/
theorem progressive_rectification_outer_unknown (responses : Nat → String)
    (score : String → String → Rat) (prompt info iid a0e : String)
    (max_iter : Nat) (limite : Rat) :
    ∀ gas attempt cat calls log,
      palavras_chave (pyUpper (pyStrip cat)) = none →
      progressive_rectification_outer responses score prompt info iid a0e
        max_iter limite attempt cat calls log gas =
        Except.ok ([prp_record iid info cat a0e 0 max_iter], calls, log) := by
  intro gas
  induction gas with
  | zero => intro attempt cat calls log _; rfl
  | succ g ih =>
    intro attempt cat calls log h
    have hsub : get_subcategories cat = [] := by
      simp only [get_subcategories, h]
    simp only [progressive_rectification_outer, hsub,
      progressive_rectification_inner]
    exact ih (attempt + 1) cat calls log h

/-! ## Claim C10 -/

/-- Claim C10: if the initial candidate category, stripped and
uppercased, is not a key of the keyword table, then the keyword lookup is
empty, the inner keyword loop never runs, and Progressive Rectification
returns that candidate unchanged with `qualidade 0.0` and `iteracao =
max_iter`, having made no model call after the initial one (call count
stays 1, rectification log stays empty). -/
theorem C10_unknown_category_short_circuit (responses : Nat → String)
    (score : String → String → Rat) (prompt : String) (row : DataRow)
    (cols : List String) (iid : String) (max_iter : Nat) (limite : Rat)
    (inc : SecIncident)
    (h0 : extract_security_incidents (responses 0) = Except.ok inc)
    (hk : palavras_chave (pyUpper (pyStrip inc.Category)) = none) :
    get_subcategories inc.Category = [] ∧
    progressive_rectification_execute responses score prompt row cols iid
        max_iter limite =
      Except.ok ([prp_record iid (build_incident_info row cols) inc.Category
        inc.Explanation 0 max_iter], 1, []) := by
  constructor
  · simp only [get_subcategories, hk]
  · simp only [progressive_rectification_execute, send_prompt, h0]
    exact progressive_rectification_outer_unknown responses score prompt _ iid
      inc.Explanation max_iter limite max_iter 0 inc.Category 1 [] hk

/-- Witness for C10: the initial response classifies as the free-form
token `FOO`, which keys nothing in the table. -/
theorem C10_witness :
    get_subcategories ({ Category := "FOO", Explanation := "e" } : SecIncident).Category = [] ∧
    progressive_rectification_execute (oracleOf ["Category: FOO\nExplanation: e"])
        eqScore "P" sampleRow ["desc"] "42" 4 1 =
      Except.ok ([prp_record "42" (build_incident_info sampleRow ["desc"])
        ({ Category := "FOO", Explanation := "e" } : SecIncident).Category
        ({ Category := "FOO", Explanation := "e" } : SecIncident).Explanation
        0 4], 1, []) :=
  C10_unknown_category_short_circuit (oracleOf ["Category: FOO\nExplanation: e"])
    eqScore "P" sampleRow ["desc"] "42" 4 1
    { Category := "FOO", Explanation := "e" } rfl rfl

/-! ## Claim C1 -/

/-- Log of a Progressive Rectification inner-loop outcome. -/
def prInnerLog (res : Sum (PRPRecord × Nat × List (String × String))
    (String × Nat × List (String × String))) : List (String × String) :=
  match res with
  | Sum.inl (_, _, log) => log
  | Sum.inr (_, _, log) => log

/-- Every rectification prompt recorded by the inner loop names exactly
the one category rejected immediately before it, with the leading comma
of `',' + categoria_atual` (the source reassigns `categoria_rejectada`,
so nothing accumulates). -/
theorem progressive_rectification_inner_log (responses : Nat → String)
    (score : String → String → Rat) (prompt info iid a0e : String)
    (limite : Rat) (attempt : Nat) :
    ∀ subcats cat calls log res,
      (∀ p ∈ log, p.2 = build_rectification_prompt prompt ("," ++ p.1)) →
      progressive_rectification_inner responses score prompt info iid a0e limite
        attempt subcats cat calls log = Except.ok res →
      ∀ p ∈ prInnerLog res, p.2 = build_rectification_prompt prompt ("," ++ p.1) := by
  intro subcats
  induction subcats with
  | nil =>
    intro cat calls log res hlog h
    simp only [progressive_rectification_inner] at h
    cases h
    exact hlog
  | cons subcat rest ih =>
    intro cat calls log res hlog h
    simp only [progressive_rectification_inner, send_prompt] at h
    cases he1 : extract_security_incidents (responses (calls + 1)) with
    | error e => rw [he1] at h; simp at h
    | ok vinc =>
      rw [he1] at h
      simp only at h
      by_cases hc : limite ≤ score cat vinc.Category
      · rw [if_pos hc] at h
        cases h
        exact hlog
      · rw [if_neg hc] at h
        cases he2 : extract_security_incidents (responses (calls + 1 + 1)) with
        | error e => rw [he2] at h; simp at h
        | ok rinc =>
          rw [he2] at h
          simp only at h
          refine ih _ _ _ _ ?_ h
          intro p hp
          rcases List.mem_append.mp hp with hp | hp
          · exact hlog p hp
          · rcases List.mem_singleton.mp hp with rfl
            rfl

/-- The outer loop preserves the same rectification-log invariant. -/
theorem progressive_rectification_outer_log (responses : Nat → String)
    (score : String → String → Rat) (prompt info iid a0e : String)
    (max_iter : Nat) (limite : Rat) :
    ∀ gas attempt cat calls log rs c log2,
      (∀ p ∈ log, p.2 = build_rectification_prompt prompt ("," ++ p.1)) →
      progressive_rectification_outer responses score prompt info iid a0e
        max_iter limite attempt cat calls log gas = Except.ok (rs, c, log2) →
      ∀ p ∈ log2, p.2 = build_rectification_prompt prompt ("," ++ p.1) := by
  intro gas
  induction gas with
  | zero =>
    intro attempt cat calls log rs c log2 hlog h
    simp only [progressive_rectification_outer] at h
    cases h
    exact hlog
  | succ g ih =>
    intro attempt cat calls log rs c log2 hlog h
    simp only [progressive_rectification_outer] at h
    cases hi : progressive_rectification_inner responses score prompt info iid
        a0e limite attempt (get_subcategories cat) cat calls log with
    | error e => rw [hi] at h; simp at h
    | ok res =>
      rw [hi] at h
      have hres := progressive_rectification_inner_log responses score prompt
        info iid a0e limite attempt (get_subcategories cat) cat calls log res
        hlog hi
      cases res with
      | inl early =>
        obtain ⟨r, calls2, log3⟩ := early
        simp only at h
        cases h
        exact hres
      | inr cont =>
        obtain ⟨cat2, calls2, log3⟩ := cont
        simp only at h
        exact ih (attempt + 1) cat2 calls2 log3 rs c log2 hres h

/-- Counterexample to C1 as stated: a run in which two candidates (CAT2,
then CAT4) fail the quality check before the second rectification call,
yet the second rectification prompt names only `,CAT4` — the earlier
rejected candidate CAT2 appears nowhere in it, so the prompt does not
list all rejected candidates comma-joined. -/
theorem C1_counterexample :
    progressive_rectification_execute prCexResponses eqScore "P" sampleRow
        ["desc"] "42" 4 1 =
      Except.ok ([prp_record "42" "desc: incident text" "CAT5" "E" 1 1], 9,
        [("CAT2", build_rectification_prompt "P" ",CAT2"),
         ("CAT4", build_rectification_prompt "P" ",CAT4")]) ∧
    strHasInfix "CAT2" (build_rectification_prompt "P" ",CAT4") = false :=
  ⟨rfl, by decide⟩

/-- Claim C1 (amended: `categoria_rejectada` is overwritten at each
rectification, not accumulated): in every normally returning run, each
"The answer is probably not:" line of each rectification prompt carries only
the single candidate rejected at that step, prefixed by the leading comma
of `',' + categoria_atual`. -/
theorem C1_rectification_prompt_names_latest_rejection (responses : Nat → String)
    (score : String → String → Rat) (prompt : String) (row : DataRow)
    (cols : List String) (iid : String) (max_iter : Nat) (limite : Rat)
    (rs : List PRPRecord) (c : Nat) (log : List (String × String))
    (h : progressive_rectification_execute responses score prompt row cols iid
      max_iter limite = Except.ok (rs, c, log)) :
    ∀ p ∈ log, p.2 = build_rectification_prompt prompt ("," ++ p.1) := by
  revert h
  simp only [progressive_rectification_execute, send_prompt]
  cases he : extract_security_incidents (responses 0) with
  | error e => intro h; simp at h
  | ok a0 =>
    intro h
    exact progressive_rectification_outer_log responses score prompt _ iid
      a0.Explanation max_iter limite max_iter 0 a0.Category 1 [] rs c log
      (by intro p hp; simp at hp) h

/-- Witness for C1: the amended statement applied to the concrete
two-rejection run, at the second log entry. -/
theorem C1_witness :
    (("CAT4", build_rectification_prompt "P" ",CAT4") : String × String).2 =
      build_rectification_prompt "P" ("," ++ "CAT4") :=
  C1_rectification_prompt_names_latest_rejection prCexResponses eqScore "P"
    sampleRow ["desc"] "42" 4 1
    [prp_record "42" "desc: incident text" "CAT5" "E" 1 1] 9
    [("CAT2", build_rectification_prompt "P" ",CAT2"),
     ("CAT4", build_rectification_prompt "P" ",CAT4")] rfl
    ("CAT4", build_rectification_prompt "P" ",CAT4") (by simp)

/-! ## Claim C7: whole-word CAT canonicalization -/

/-- Digit groups admitted by `([1-9]|1[0-2])`: exactly the decimal
representations of 1 through 12. -/
def isCatNum (num : List Char) : Bool :=
  match num with
  | [d] => decide ('1' ≤ d ∧ d ≤ '9')
  | [d, e] => decide (d = '1' ∧ '0' ≤ e ∧ e ≤ '2')
  | _ => false

/-- Boundary state before a position: `pre` is the text to the left, `pw`
whether the character before `pre` (if `pre` is empty, before the
position) is a word character; true when the position sits at a `\b`. -/
def okBeforeB (pw : Bool) (pre : List Char) : Bool :=
  match pre with
  | [] => !pw
  | c :: pre2 => okBeforeB (isWordChar c) pre2

/-- Spec-side reading of the canonicalization condition: the uppercased
text contains the whole word `CAT` immediately followed by a number 1
through 12 — i.e. it splits as `pre ++ "CAT" ++ digits ++ post` where the
digit group is one of `1..12`, the character before `C` (if any) is not a
word character, and the character after the digits (if any) is not a word
character. -/
def SpecCatNum (s : String) : Prop :=
  ∃ pre num post,
    (pyUpper s).data = pre ++ ('C' :: 'A' :: 'T' :: num) ++ post ∧
    isCatNum num = true ∧
    (pre = [] ∨ ∃ pre2 c, pre = pre2 ++ [c] ∧ isWordChar c = false) ∧
    noWordAhead post = true

/-- The boundary tracker agrees with the "empty or ends in a non-word
character" reading. -/
theorem okBeforeB_iff (pre : List Char) :
    ∀ pw, okBeforeB pw pre = true ↔
      ((pre = [] ∧ pw = false) ∨
        ∃ pre2 c, pre = pre2 ++ [c] ∧ isWordChar c = false) := by
  induction pre with
  | nil =>
    intro pw
    simp [okBeforeB]
  | cons c pre2 ih =>
    intro pw
    rw [show okBeforeB pw (c :: pre2) = okBeforeB (isWordChar c) pre2 from rfl,
      ih (isWordChar c)]
    constructor
    · rintro (⟨rfl, hw⟩ | ⟨pre3, c2, rfl, hw⟩)
      · exact Or.inr ⟨[], c, rfl, hw⟩
      · exact Or.inr ⟨c :: pre3, c2, rfl, hw⟩
    · rintro (⟨h, _⟩ | ⟨pre3, c2, heq, hw⟩)
      · exact absurd h (List.cons_ne_nil c pre2)
      · cases pre3 with
        | nil =>
          simp only [List.nil_append, List.cons.injEq] at heq
          obtain ⟨rfl, rfl⟩ := heq
          exact Or.inl ⟨rfl, hw⟩
        | cons c3 pre4 =>
          simp only [List.cons_append, List.cons.injEq] at heq
          obtain ⟨rfl, rfl⟩ := heq
          exact Or.inr ⟨pre4, c2, rfl, hw⟩


/-- Character comparison reduces to code-point comparison. -/
theorem char_le_toNat {a b : Char} : a ≤ b ↔ a.toNat ≤ b.toNat := by
  rw [Char.le_def, UInt32.le_def, BitVec.le_def]
  exact Iff.rfl

/-- A digit between `0` and `2` is a word character. -/
theorem isWordChar_of_digit02 (e : Char) (h0 : '0' ≤ e) (h2 : e ≤ '2') :
    isWordChar e = true := by
  have hn0 : 48 ≤ e.toNat := char_le_toNat.mp h0
  have hn2 : e.toNat ≤ 50 := char_le_toNat.mp h2
  have hdig : e.isDigit = true := by
    simp only [Char.isDigit, Bool.and_eq_true, decide_eq_true_eq, ge_iff_le]
    constructor
    · rw [UInt32.le_def, BitVec.le_def]
      exact hn0
    · rw [UInt32.le_def, BitVec.le_def]
      exact le_trans hn2 (by decide)
  simp [isWordChar, Char.isAlphanum, hdig]

/-- Soundness of the anchored digit matcher: a hit means the text splits
as `CAT` + an admitted digit group + a non-word continuation. -/
theorem catDigitsAt_sound (l ds : List Char) (h : catDigitsAt l = some ds) :
    isCatNum ds = true ∧
    ∃ post, l = 'C' :: 'A' :: 'T' :: (ds ++ post) ∧ noWordAhead post = true := by
  rcases l with _ | ⟨c1, _ | ⟨c2, _ | ⟨c3, _ | ⟨d, rest⟩⟩⟩⟩
  · simp [catDigitsAt] at h
  · simp [catDigitsAt] at h
  · simp [catDigitsAt] at h
  · simp [catDigitsAt] at h
  · simp only [catDigitsAt] at h
    by_cases hC : c1 = 'C' ∧ c2 = 'A' ∧ c3 = 'T'
    · rw [if_pos hC] at h
      obtain ⟨rfl, rfl, rfl⟩ := hC
      by_cases h1 : '1' ≤ d ∧ d ≤ '9' ∧ noWordAhead rest = true
      · rw [if_pos h1] at h
        cases h
        exact ⟨by simp [isCatNum, h1.1, h1.2.1], rest, by simp, h1.2.2⟩
      · rw [if_neg h1] at h
        rcases rest with _ | ⟨e, rest2⟩
        · cases h
        · simp only at h
          by_cases h2 : d = '1' ∧ '0' ≤ e ∧ e ≤ '2' ∧ noWordAhead rest2 = true
          · rw [if_pos h2] at h
            cases h
            obtain ⟨rfl, he0, he2, hnw⟩ := h2
            exact ⟨by simp [isCatNum, he0, he2], rest2, by simp, hnw⟩
          · rw [if_neg h2] at h
            cases h
    · rw [if_neg hC] at h
      cases h

/-- Completeness of the anchored digit matcher: at a split of the
admitted shape, `catDigitsAt` hits. -/
theorem catDigitsAt_complete (num post : List Char)
    (hnum : isCatNum num = true) (hpost : noWordAhead post = true) :
    ∃ ds, catDigitsAt ('C' :: 'A' :: 'T' :: (num ++ post)) = some ds := by
  rcases num with _ | ⟨d, _ | ⟨e, _ | ⟨f, t⟩⟩⟩
  · simp [isCatNum] at hnum
  · have hd : '1' ≤ d ∧ d ≤ '9' := by simpa [isCatNum] using hnum
    exact ⟨[d], by simp [catDigitsAt, hd.1, hd.2, hpost]⟩
  · have hd : d = '1' ∧ '0' ≤ e ∧ e ≤ '2' := by simpa [isCatNum] using hnum
    obtain ⟨rfl, he0, he2⟩ := hd
    have hnw : noWordAhead (e :: post) = false := by
      simp [noWordAhead, isWordChar_of_digit02 e he0 he2]
    exact ⟨['1', e], by simp [catDigitsAt, hnw, he0, he2, hpost]⟩
  · simp [isCatNum] at hnum

/-- Correctness of the `\bCAT([1-9]|1[0-2])\b` scan: it hits exactly when
the text splits around a whole-word `CAT<1..12>` occurrence (boundary on
the left expressed through the tracked `prevWord` flag). -/
theorem scanCat_iff (l : List Char) : ∀ pw : Bool,
    (∃ ds, scanCat pw l = some ds) ↔
    ∃ pre num post,
      l = pre ++ ('C' :: 'A' :: 'T' :: num) ++ post ∧
      isCatNum num = true ∧ okBeforeB pw pre = true ∧
      noWordAhead post = true := by
  induction l with
  | nil =>
    intro pw
    constructor
    · rintro ⟨ds, h⟩
      simp [scanCat] at h
    · rintro ⟨pre, num, post, heq, -, -, -⟩
      exfalso
      have hlen := congrArg List.length heq
      simp [List.length_append] at hlen
      omega
  | cons c rest ih =>
    intro pw
    cases hhead : (if pw then none else catDigitsAt (c :: rest)) with
    | some ds0 =>
      have hpw : pw = false := by
        cases pw
        · rfl
        · simp at hhead
      have hca : catDigitsAt (c :: rest) = some ds0 := by
        rw [hpw] at hhead
        simpa using hhead
      obtain ⟨hnum, post, heqn, hp⟩ := catDigitsAt_sound _ _ hca
      refine iff_of_true ⟨ds0, ?_⟩ ⟨[], ds0, post, by simpa using heqn, hnum,
        by simp [okBeforeB, hpw], hp⟩
      rw [scanCat, hhead]
    | none =>
      have hstep : scanCat pw (c :: rest) = scanCat (isWordChar c) rest := by
        rw [scanCat, hhead]
      rw [hstep, ih (isWordChar c)]
      constructor
      · rintro ⟨pre, num, post, heq, hnum, hb, hp⟩
        exact ⟨c :: pre, num, post, by simp [heq], hnum, hb, hp⟩
      · rintro ⟨pre, num, post, heq, hnum, hb, hp⟩
        cases pre with
        | nil =>
          exfalso
          have hpw : pw = false := by simpa [okBeforeB] using hb
          have hca : catDigitsAt (c :: rest) = none := by
            rw [hpw] at hhead
            simpa using hhead
          obtain ⟨ds, hds⟩ := catDigitsAt_complete num post hnum hp
          rw [show (c :: rest) = 'C' :: 'A' :: 'T' :: (num ++ post) from by
            simpa using heq] at hca
          rw [hca] at hds
          cases hds
        | cons c0 pre2 =>
          simp only [List.cons_append, List.cons.injEq] at heq
          obtain ⟨rfl, heq2⟩ := heq
          exact ⟨pre2, num, post, heq2, hnum, hb, hp⟩

/-- Whatever the scan returns is an admitted digit group. -/
theorem scanCat_isCatNum (l : List Char) : ∀ pw ds,
    scanCat pw l = some ds → isCatNum ds = true := by
  induction l with
  | nil => intro pw ds h; simp [scanCat] at h
  | cons c rest ih =>
    intro pw ds h
    cases hhead : (if pw then none else catDigitsAt (c :: rest)) with
    | some ds0 =>
      rw [scanCat, hhead] at h
      cases h
      have hca : catDigitsAt (c :: rest) = some ds := by
        cases pw
        · simpa using hhead
        · simp at hhead
      exact (catDigitsAt_sound _ _ hca).1
    | none =>
      rw [scanCat, hhead] at h
      exact ih (isWordChar c) ds h

/-- The spec-side whole-word condition holds exactly when the embedded
`re.search` scan hits. -/
theorem SpecCatNum_iff_scan (s : String) :
    SpecCatNum s ↔ ∃ ds, scanCat false (pyUpper s).data = some ds := by
  rw [scanCat_iff (pyUpper s).data false]
  unfold SpecCatNum
  refine exists_congr fun pre => exists_congr fun num => exists_congr fun post => ?_
  have hb := okBeforeB_iff pre false
  constructor
  · rintro ⟨h1, h2, h3, h4⟩
    refine ⟨h1, h2, hb.mpr ?_, h4⟩
    rcases h3 with h3 | h3
    · exact Or.inl ⟨h3, rfl⟩
    · exact Or.inr h3
  · rintro ⟨h1, h2, h3, h4⟩
    refine ⟨h1, h2, ?_, h4⟩
    rcases hb.mp h3 with ⟨h5, -⟩ | h5
    · exact Or.inl h5
    · exact Or.inr h5

/-! ### Claim C7 proper -/

/-- Claim C7: the secondary normalization `extract_cat` / `_extract_cat`
returns an uppercase `CAT<N>` (digit group among 1..12) exactly when the
input contains, case-insensitively, the whole word `CAT` immediately
followed by a number 1 through 12; on every other input — `CAT13`,
`CAT0`, free-form tokens — it returns the input unchanged. -/
theorem C7_extract_cat_whole_word (s : String) :
    (SpecCatNum s →
      ∃ num, isCatNum num = true ∧ extract_cat s = "CAT" ++ String.mk num) ∧
    (¬ SpecCatNum s → extract_cat s = s) := by
  constructor
  · intro hs
    obtain ⟨ds, hds⟩ := (SpecCatNum_iff_scan s).mp hs
    exact ⟨ds, scanCat_isCatNum _ _ _ hds, by rw [extract_cat, hds]⟩
  · intro hs
    rw [extract_cat]
    cases hscan : scanCat false (pyUpper s).data with
    | some ds => exact absurd ((SpecCatNum_iff_scan s).mpr ⟨ds, hscan⟩) hs
    | none => rfl

/-- Witness for C7: `cat5 (likely)` canonicalizes to `CAT5`, while
`CAT13`, `CAT0` and a free-form token pass through unchanged. -/
theorem C7_witness :
    (∃ num, isCatNum num = true ∧
      extract_cat "cat5 (likely)" = "CAT" ++ String.mk num) ∧
    extract_cat "CAT13" = "CAT13" ∧
    extract_cat "CAT0" = "CAT0" ∧
    extract_cat "needs triage" = "needs triage" := by
  have hnot13 : ¬ SpecCatNum "CAT13" := by
    intro h
    obtain ⟨ds, hds⟩ := (SpecCatNum_iff_scan _).mp h
    have : (scanCat false (pyUpper "CAT13").data).isSome := by
      rw [hds]; rfl
    exact absurd this (by decide)
  have hnot0 : ¬ SpecCatNum "CAT0" := by
    intro h
    obtain ⟨ds, hds⟩ := (SpecCatNum_iff_scan _).mp h
    have : (scanCat false (pyUpper "CAT0").data).isSome := by
      rw [hds]; rfl
    exact absurd this (by decide)
  have hnotf : ¬ SpecCatNum "needs triage" := by
    intro h
    obtain ⟨ds, hds⟩ := (SpecCatNum_iff_scan _).mp h
    have : (scanCat false (pyUpper "needs triage").data).isSome := by
      rw [hds]; rfl
    exact absurd this (by decide)
  refine ⟨(C7_extract_cat_whole_word "cat5 (likely)").1
      ⟨[], ['5'], " (LIKELY)".data, by decide, by decide, Or.inl rfl, by decide⟩,
    (C7_extract_cat_whole_word "CAT13").2 hnot13,
    (C7_extract_cat_whole_word "CAT0").2 hnot0,
    (C7_extract_cat_whole_word "needs triage").2 hnotf⟩
